import Mathlib

/-!
Shallow embedding of the projection engine of `src/model.py`
(`BusinessEvent`, `calculate_monthly_payment`, `FinancialModel.calculate_projection`).

Python floats are modelled by exact rationals (`ℚ`); Python `date` arithmetic with
`relativedelta(months=k)` only ever feeds the calendar year / month / quarter of the
row, so the start date is modelled by its (year, month) pair.  Month indices `m`
are the 1-based loop index of `calculate_projection`.
-/

namespace NDGS

/-- Start date of a projection run: only year and month matter to the engine
(the day is never read by any emitted field). -/
structure Date where
  year : ℤ
  month : ℕ
deriving Repr, DecidableEq

/-- `BusinessEvent` dataclass of `src/model.py` (the `description` field is never
read by the engine and is omitted). -/
structure BusinessEvent where
  name : String
  start_month : ℤ
  end_month : ℤ := 120
  frequency : String := "One-time"
  impact_target : String := "Revenue"
  pct_basis : String := "Revenue"
  value_type : String := "Fixed Amount ($)"
  value : ℚ := 0
  affected_entity : String := "Store"
  is_active : Bool := true
deriving Repr, DecidableEq

/-- `DAYS_IN_MONTH = 30.5` in `src/model.py`. -/
def DAYS_IN_MONTH : ℚ := 61 / 2

/-- `calculate_monthly_payment` of `src/model.py`.  `years` is a Python `int`;
every use in the repository is nonnegative, so it is modelled as `ℕ` (it feeds the
exponent `n = years * 12`). -/
def calculate_monthly_payment (principal annual_rate : ℚ) (years : ℕ) : ℚ :=
  if principal ≤ 0 then 0
  else if annual_rate ≤ 0 then principal / ((years : ℚ) * 12)
  else
    let r := (annual_rate / 100) / 12
    let n := years * 12
    principal * (r * (1 + r) ^ n) / ((1 + r) ^ n - 1)

/-- The input fields of the `FinancialModel` dataclass of `src/model.py`. -/
structure FinancialModel where
  seasonality : List ℚ
  revenue_growth_rate : ℚ
  expense_growth_rate : ℚ
  wage_growth_rate : ℚ
  rent_escalation_rate : ℚ
  base_revenue : ℚ
  base_cogs_pct : ℚ
  operating_hours : ℚ
  manager_weekly_hours : ℚ
  manager_wage_hourly : ℚ
  hourly_wage : ℚ
  avg_staff : ℚ
  utilities : ℚ
  insurance : ℚ
  maintenance : ℚ
  marketing : ℚ
  professional_fees : ℚ
  loan_amount : ℚ
  interest_rate : ℚ
  amortization_years : ℕ
  initial_capex : ℚ
  commercial_rent_income : ℚ
  residential_rent_income : ℚ
  events : List BusinessEvent := []

/-- `monthly_debt_service` computed once up front in `calculate_projection`. -/
def monthly_debt_service (cfg : FinancialModel) : ℚ :=
  calculate_monthly_payment cfg.loan_amount cfg.interest_rate cfg.amortization_years

/-- `project_year_idx = (m - 1) // 12` (line 104). -/
def project_year_idx (m : ℕ) : ℕ := (m - 1) / 12

/-- Calendar month of projection month `m`: `start_date + relativedelta(months=m-1)`.
`relativedelta` only clamps the day; the month cycles mod 12 with year carry. -/
def cal_month (start : Date) (m : ℕ) : ℕ := (start.month - 1 + (m - 1)) % 12 + 1

/-- Calendar year of projection month `m`. -/
def cal_year (start : Date) (m : ℕ) : ℤ :=
  start.year + ((start.month - 1 + (m - 1)) / 12 : ℕ)

/-- `cal_quarter_idx = (cal_month - 1) // 3` (line 100). -/
def cal_quarter_idx (start : Date) (m : ℕ) : ℕ := (cal_month start m - 1) / 3

/-- `rev_growth_factor` (line 107). -/
def rev_growth_factor (cfg : FinancialModel) (m : ℕ) : ℚ :=
  (1 + cfg.revenue_growth_rate / 100) ^ project_year_idx m

/-- `exp_growth_factor` (line 108). -/
def exp_growth_factor (cfg : FinancialModel) (m : ℕ) : ℚ :=
  (1 + cfg.expense_growth_rate / 100) ^ project_year_idx m

/-- `wage_growth_factor` (line 109). -/
def wage_growth_factor (cfg : FinancialModel) (m : ℕ) : ℚ :=
  (1 + cfg.wage_growth_rate / 100) ^ project_year_idx m

/-- `rent_growth_factor` (line 110). -/
def rent_growth_factor (cfg : FinancialModel) (m : ℕ) : ℚ :=
  (1 + cfg.rent_escalation_rate / 100) ^ project_year_idx m

/-- `seasonality_factor = self.seasonality[cal_quarter_idx]` (line 113).
`cal_quarter_idx` is always in `0..3`, so for the 4-entry lists the engine is run
with, the default of `getD` is never taken. -/
def seasonality_factor (cfg : FinancialModel) (start : Date) (m : ℕ) : ℚ :=
  cfg.seasonality.getD (cal_quarter_idx start m) 0

/-- `monthly_base_rev` (line 117). -/
def monthly_base_rev (cfg : FinancialModel) (start : Date) (m : ℕ) : ℚ :=
  cfg.base_revenue * rev_growth_factor cfg m * seasonality_factor cfg start m

/-- `cogs_base_amt` (line 120). -/
def cogs_base_amt (cfg : FinancialModel) (start : Date) (m : ℕ) : ℚ :=
  (cfg.base_revenue * cfg.base_cogs_pct) * rev_growth_factor cfg m *
    seasonality_factor cfg start m

/-- `manager_hours_mo` (line 125). -/
def manager_hours_mo (cfg : FinancialModel) : ℚ := cfg.manager_weekly_hours * 52 / 12

/-- `manager_mo_cost` (lines 124-126). -/
def manager_mo_cost (cfg : FinancialModel) (m : ℕ) : ℚ :=
  (cfg.manager_wage_hourly * wage_growth_factor cfg m) * manager_hours_mo cfg

/-- `required_hourly_staff_hours` (lines 132-136). -/
def required_hourly_staff_hours (cfg : FinancialModel) : ℚ :=
  max 0 (cfg.avg_staff * cfg.operating_hours * DAYS_IN_MONTH - manager_hours_mo cfg)

/-- `staff_cost_mo` (lines 129-138). -/
def staff_cost_mo (cfg : FinancialModel) (m : ℕ) : ℚ :=
  (cfg.hourly_wage * wage_growth_factor cfg m) * required_hourly_staff_hours cfg

/-- `labor_seasonality = 1 + (seasonality_factor - 1) * 0.5` (line 141). -/
def labor_seasonality (cfg : FinancialModel) (start : Date) (m : ℕ) : ℚ :=
  1 + (seasonality_factor cfg start m - 1) * (1 / 2)

/-- Base `store_labor` (line 142), before event impacts. -/
def store_labor (cfg : FinancialModel) (start : Date) (m : ℕ) : ℚ :=
  manager_mo_cost cfg m + staff_cost_mo cfg m * labor_seasonality cfg start m

/-- `ex_util` (line 146). -/
def ex_util (cfg : FinancialModel) (m : ℕ) : ℚ := cfg.utilities * exp_growth_factor cfg m

/-- `ex_ins` (line 147). -/
def ex_ins (cfg : FinancialModel) (m : ℕ) : ℚ := cfg.insurance * exp_growth_factor cfg m

/-- `ex_maint` (line 148). -/
def ex_maint (cfg : FinancialModel) (m : ℕ) : ℚ := cfg.maintenance * exp_growth_factor cfg m

/-- `ex_mktg` (line 149). -/
def ex_mktg (cfg : FinancialModel) (m : ℕ) : ℚ := cfg.marketing * exp_growth_factor cfg m

/-- `ex_prof` (line 150). -/
def ex_prof (cfg : FinancialModel) (m : ℕ) : ℚ :=
  cfg.professional_fees * exp_growth_factor cfg m

/-- Base `store_ops_expenses` (line 152), before event impacts. -/
def store_ops_expenses (cfg : FinancialModel) (m : ℕ) : ℚ :=
  ex_util cfg m + ex_ins cfg m + ex_maint cfg m + ex_mktg cfg m + ex_prof cfg m

/-- Base `store_rent_expense` (line 155), before event impacts. -/
def store_rent_expense (cfg : FinancialModel) (m : ℕ) : ℚ :=
  cfg.commercial_rent_income * rent_growth_factor cfg m

/-! ### Event evaluation (lines 157-262) -/

/-- Python's substring test `pat in s`. -/
def strContains (s pat : String) : Bool := decide (List.IsInfix pat.toList s.toList)

/-- Active / window / frequency gate of the event loop (lines 176-195):
an event contributes in month `m` iff it is active, `start_month ≤ m ≤ end_month`,
and the frequency test on `month_delta = m - start_month` passes; an unrecognized
frequency string never applies. -/
def eventApplies (e : BusinessEvent) (m : ℕ) : Bool :=
  e.is_active &&
  decide (e.start_month ≤ (m : ℤ) ∧ (m : ℤ) ≤ e.end_month) &&
  (if e.frequency = "One-time" then decide ((m : ℤ) = e.start_month)
   else if e.frequency = "Monthly" then true
   else if e.frequency = "Quarterly" then decide (((m : ℤ) - e.start_month) % 3 = 0)
   else if e.frequency = "Annually" then decide (((m : ℤ) - e.start_month) % 12 = 0)
   else false)

/-- NOI lookback window by frequency (lines 229-231): `window = 1`, overridden to 3
for Quarterly and 12 for Annually. -/
def noi_window (e : BusinessEvent) : ℕ :=
  if e.frequency = "Quarterly" then 3 else if e.frequency = "Annually" then 12 else 1

/-- NOI lookback basis value (lines 233-239): when `m > window`, sum
`projection[m - i - 1]["Store_NOI_Pre"]` for `i = 1..window` (the rows of months
`m-1 .. m-window`; the `(m - i - 1) >= 0` guard of the source is vacuous there),
clamped to 0 when the sum is not positive; otherwise `model_base_val` stays 0.
`noiHist` is the list of finalized `Store_NOI_Pre` values, index `k` = month `k+1`. -/
def noi_lookback (noiHist : List ℚ) (m window : ℕ) : ℚ :=
  if window < m then
    let s := ((List.range window).map fun i => noiHist.getD (m - (i + 1) - 1) 0).sum
    if 0 < s then s else 0
  else 0

/-- `basis_to_use` (lines 206-213): the explicit `pct_basis`, overridden by the
legacy value-type substring fallbacks. -/
def basis_to_use (e : BusinessEvent) : String :=
  if strContains e.value_type "Revenue" then "Revenue"
  else if strContains e.value_type "COGS" then "COGS"
  else if strContains e.value_type "Ops" then "Ops (Fixed)"
  else if strContains e.value_type "NOI" then "NOI"
  else if strContains e.value_type "Previous Quarter" then "NOI"
  else e.pct_basis

/-- `model_base_val` (lines 199-239): the pre-event base figure of the chosen basis
(Capex resolves to 0, an unknown basis leaves the initial 0). -/
def model_base_val (cfg : FinancialModel) (start : Date) (noiHist : List ℚ)
    (m : ℕ) (e : BusinessEvent) : ℚ :=
  let b := basis_to_use e
  if b = "Revenue" then monthly_base_rev cfg start m
  else if b = "COGS" then cogs_base_amt cfg start m
  else if b = "Labor" then store_labor cfg start m
  else if b = "Ops (Fixed)" then store_ops_expenses cfg m
  else if b = "Rent" then store_rent_expense cfg m
  else if b = "Capex" then 0
  else if b = "NOI" then noi_lookback noiHist m (noi_window e)
  else 0

/-- `val` of an event that passed the gates (lines 198-241): the configured value
for `"Fixed Amount ($)"`, `basis × value/100` for a value type containing
`"Percent"` or `"%"`, otherwise the initial 0. -/
def eventVal (cfg : FinancialModel) (start : Date) (noiHist : List ℚ)
    (m : ℕ) (e : BusinessEvent) : ℚ :=
  if e.value_type = "Fixed Amount ($)" then e.value
  else if strContains e.value_type "Percent" || strContains e.value_type "%" then
    model_base_val cfg start noiHist m e * (e.value / 100)
  else 0

/-- The value an event adds to its breakdown column in month `m`
(line 244; 0 when the gates of lines 176-195 skip the event). -/
def appliedVal (cfg : FinancialModel) (start : Date) (noiHist : List ℚ)
    (m : ℕ) (e : BusinessEvent) : ℚ :=
  if eventApplies e m then eventVal cfg start noiHist m e else 0

/-- The eight per-month event accumulators of lines 158-165. -/
structure Impacts where
  rev : ℚ := 0
  cogs : ℚ := 0
  labor : ℚ := 0
  ops : ℚ := 0
  rent : ℚ := 0
  capexStore : ℚ := 0
  capexProp : ℚ := 0
  propOps : ℚ := 0
deriving Repr, DecidableEq

/-- Componentwise sum of impact accumulators (`+=` of the loop body). -/
def Impacts.add (a b : Impacts) : Impacts :=
  { rev := a.rev + b.rev, cogs := a.cogs + b.cogs, labor := a.labor + b.labor,
    ops := a.ops + b.ops, rent := a.rent + b.rent,
    capexStore := a.capexStore + b.capexStore, capexProp := a.capexProp + b.capexProp,
    propOps := a.propOps + b.propOps }

instance : Zero Impacts := ⟨{}⟩

instance : Add Impacts := ⟨Impacts.add⟩

instance : AddCommMonoid Impacts where
  add_assoc a b c := by
    show Impacts.add (Impacts.add a b) c = Impacts.add a (Impacts.add b c)
    simp [Impacts.add, add_assoc]
  zero_add a := by
    show Impacts.add {} a = a
    cases a
    simp [Impacts.add]
  add_zero a := by
    show Impacts.add a {} = a
    cases a
    simp [Impacts.add]
  add_comm a b := by
    show Impacts.add a b = Impacts.add b a
    simp [Impacts.add, add_comm]
  nsmul := nsmulRec

/-- Target / entity allocation of a computed event value (lines 247-262):
the value lands on exactly one accumulator; an unrecognized `impact_target`
lands nowhere. -/
def allocate (e : BusinessEvent) (v : ℚ) : Impacts :=
  if e.impact_target = "Revenue" then { rev := v }
  else if e.impact_target = "COGS" then { cogs := v }
  else if e.impact_target = "Labor" then { labor := v }
  else if e.impact_target = "Ops (Fixed)" then
    (if e.affected_entity = "Property" then { propOps := v } else { ops := v })
  else if e.impact_target = "Rent" then { rent := v }
  else if e.impact_target = "Capex" then
    (if e.affected_entity = "Property" then { capexProp := v } else { capexStore := v })
  else 0

/-- One event's contribution to the month's accumulators (the loop body,
lines 170-262): nothing when a gate skips the event. -/
def eventImpact (cfg : FinancialModel) (start : Date) (noiHist : List ℚ)
    (m : ℕ) (e : BusinessEvent) : Impacts :=
  if eventApplies e m then allocate e (eventVal cfg start noiHist m e) else 0

/-- The accumulated event impacts of month `m` over an event list: the loop of
lines 170-262 only ever adds each event's contribution to the accumulators, so it
is the sum of the per-event contributions. -/
def monthImpacts (cfg : FinancialModel) (start : Date) (noiHist : List ℚ)
    (m : ℕ) (events : List BusinessEvent) : Impacts :=
  (events.map (eventImpact cfg start noiHist m)).sum

/-- The per-event-name breakdown columns (`"Event: <name>"`, lines 168-244),
as a total function from event name to the month's accumulated value for that
name; a name no event carries maps to 0 (the column is absent from the frame). -/
def monthBreakdown (cfg : FinancialModel) (start : Date) (noiHist : List ℚ)
    (m : ℕ) (events : List BusinessEvent) (nm : String) : ℚ :=
  ((events.filter fun e => e.name = nm).map (appliedVal cfg start noiHist m)).sum

/-! ### Row emission (lines 264-355) -/

/-- The `row_data` record of lines 316-348 (signs exactly as emitted), with the
event breakdown columns of line 351 as the function `eventCols`. -/
structure OutputRow where
  year : ℤ
  month : ℕ
  quarter : ℕ
  projectMonth : ℕ
  projectYear : ℕ
  storeRevenue : ℚ
  storeCOGS : ℚ
  storeLabor : ℚ
  storeBonus : ℚ
  storeOpsEx : ℚ
  exUtil : ℚ
  exIns : ℚ
  exMaint : ℚ
  exMktg : ℚ
  exProf : ℚ
  storeRentEx : ℚ
  propDebt : ℚ
  storeNet : ℚ
  propNet : ℚ
  storeCum : ℚ
  propCum : ℚ
  ownerCum : ℚ
  ownerCashFlow : ℚ
  capex : ℚ
  netEventImpact : ℚ
  storeNOIPre : ℚ
  eventCols : String → ℚ

/-- All-zero row, used only as the `getD` default when indexing the row list. -/
def defaultRow : OutputRow :=
  { year := 0, month := 0, quarter := 0, projectMonth := 0, projectYear := 0,
    storeRevenue := 0, storeCOGS := 0, storeLabor := 0, storeBonus := 0,
    storeOpsEx := 0, exUtil := 0, exIns := 0, exMaint := 0, exMktg := 0, exProf := 0,
    storeRentEx := 0, propDebt := 0, storeNet := 0, propNet := 0,
    storeCum := 0, propCum := 0, ownerCum := 0, ownerCashFlow := 0,
    capex := 0, netEventImpact := 0, storeNOIPre := 0, eventCols := fun _ => 0 }

instance : Inhabited OutputRow := ⟨defaultRow⟩

/-- One iteration of the month loop (lines 95-353): build the row of month `m`
from the already-finalized rows `prev` (months `1..m-1`).  The running cumulative
balances are read back from the last finalized row; before month 1 they are the
seeds of lines 90-92 (`-initial_capex` for store and owner, 0 for property). -/
def monthRow (cfg : FinancialModel) (start : Date) (prev : List OutputRow)
    (m : ℕ) : OutputRow :=
  let noiHist := prev.map OutputRow.storeNOIPre
  let imp := monthImpacts cfg start noiHist m cfg.events
  let cumS0 := ((prev.getLast?).map OutputRow.storeCum).getD (-cfg.initial_capex)
  let cumP0 := ((prev.getLast?).map OutputRow.propCum).getD 0
  let cumO0 := ((prev.getLast?).map OutputRow.ownerCum).getD (-cfg.initial_capex)
  let store_total_revenue := monthly_base_rev cfg start m + imp.rev
  let store_cogs_tot := cogs_base_amt cfg start m + imp.cogs
  let store_labor_tot := store_labor cfg start m + imp.labor
  let store_ops_tot := store_ops_expenses cfg m + imp.ops
  let store_rent_tot := store_rent_expense cfg m + imp.rent
  let prop_ops_expenses := imp.propOps
  let store_noi_pre :=
    store_total_revenue - (store_cogs_tot + store_labor_tot + store_ops_tot + store_rent_tot)
  let bonus_payout : ℚ := 0
  let store_net := store_noi_pre - bonus_payout - imp.capexStore
  let prop_total_income :=
    store_rent_tot + cfg.residential_rent_income * rent_growth_factor cfg m
  let prop_debt := monthly_debt_service cfg
  let prop_net := prop_total_income - prop_debt - prop_ops_expenses - imp.capexProp
  let consolidated := store_net + prop_net
  let total_event_capex := imp.capexStore + imp.capexProp
  let net_event_impact :=
    imp.rev - (imp.cogs + imp.labor + imp.ops + imp.rent + imp.propOps) - total_event_capex
  { year := cal_year start m, month := cal_month start m,
    quarter := cal_quarter_idx start m + 1,
    projectMonth := m, projectYear := project_year_idx m + 1,
    storeRevenue := store_total_revenue,
    storeCOGS := -store_cogs_tot,
    storeLabor := -store_labor_tot,
    storeBonus := -bonus_payout,
    storeOpsEx := -store_ops_tot,
    exUtil := -(ex_util cfg m), exIns := -(ex_ins cfg m), exMaint := -(ex_maint cfg m),
    exMktg := -(ex_mktg cfg m), exProf := -(ex_prof cfg m),
    storeRentEx := -store_rent_tot,
    propDebt := -prop_debt,
    storeNet := store_net, propNet := prop_net,
    storeCum := cumS0 + store_net, propCum := cumP0 + prop_net,
    ownerCum := cumO0 + consolidated,
    ownerCashFlow := consolidated,
    capex := -(if m = 1 then cfg.initial_capex else total_event_capex),
    netEventImpact := net_event_impact,
    storeNOIPre := store_noi_pre,
    eventCols := monthBreakdown cfg start noiHist m cfg.events }

/-- `calculate_projection` restricted to its first `n` months: the list grows by
one finalized row per month, each computed from the fully-finalized prefix. -/
def projRows (cfg : FinancialModel) (start : Date) : ℕ → List OutputRow
  | 0 => []
  | n + 1 => projRows cfg start n ++ [monthRow cfg start (projRows cfg start n) (n + 1)]

/-- The row of month `m` (1-based) in an `n`-month run. -/
def rowAt (cfg : FinancialModel) (start : Date) (n m : ℕ) : OutputRow :=
  (projRows cfg start n).getD (m - 1) defaultRow

/-- The NOI history visible to month `m`: the finalized `Store_NOI_Pre` values of
the preceding rows. -/
def histOf (prev : List OutputRow) : List ℚ := prev.map OutputRow.storeNOIPre

/-- The accumulated event impacts seen while building the row of month `m` of a
run, reading the finalized rows of months `1..m-1`. -/
def impactsAt (cfg : FinancialModel) (start : Date) (m : ℕ) : Impacts :=
  monthImpacts cfg start (histOf (projRows cfg start (m - 1))) m cfg.events

/-- Flat-seasonality baseline configuration used by the concrete witnesses:
the numbers of the repository's own test fixture (`tests/test_model.py`),
restricted to the fields of `src/model.py`. -/
def wCfg : FinancialModel :=
  { seasonality := [1, 1, 1, 1], revenue_growth_rate := 0, expense_growth_rate := 0,
    wage_growth_rate := 0, rent_escalation_rate := 0, base_revenue := 10000,
    base_cogs_pct := 1 / 2, operating_hours := 10, manager_weekly_hours := 10,
    manager_wage_hourly := 20, hourly_wage := 10, avg_staff := 1,
    utilities := 100, insurance := 100, maintenance := 100, marketing := 100,
    professional_fees := 100, loan_amount := 100000, interest_rate := 0,
    amortization_years := 10, initial_capex := 0, commercial_rent_income := 1000,
    residential_rent_income := 500, events := [] }

/-- A start date used by the concrete witnesses. -/
def wStart : Date := ⟨2024, 1⟩

/-- The Monthly +5%-of-revenue event of C2, active months 7-9. -/
def promoEvent : BusinessEvent :=
  { name := "Summer Promo", start_month := 7, end_month := 9, frequency := "Monthly",
    impact_target := "Revenue", value_type := "Percentage (%)", pct_basis := "Revenue",
    value := 5 }

/-- A one-time month-1 store capex event used by the C10 witness. -/
def renoEvent : BusinessEvent :=
  { name := "Renovation", start_month := 1, frequency := "One-time",
    impact_target := "Capex", value_type := "Fixed Amount ($)", value := 5000 }

/-- The Quarterly 10%-of-NOI event of C1, starting month 1. -/
def noiBonusEvent : BusinessEvent :=
  { name := "Quarterly Bonus", start_month := 1, frequency := "Quarterly",
    impact_target := "Revenue", value_type := "Percentage (%)", pct_basis := "NOI",
    value := 10 }

/-- The frequency strings the dispatch of lines 186-193 recognizes. -/
def recognizedFrequency (f : String) : Prop :=
  f = "One-time" ∨ f = "Monthly" ∨ f = "Quarterly" ∨ f = "Annually"

/-- The value-type strings the dispatch of lines 201-203 recognizes (the canonical
fixed-amount string, or any string containing `"Percent"` or `"%"`, which covers the
legacy percentage labels the engine still honors). -/
def recognizedValueType (v : String) : Prop :=
  v = "Fixed Amount ($)" ∨ strContains v "Percent" = true ∨ strContains v "%" = true

/-- The impact-target strings the dispatch of lines 247-262 recognizes. -/
def recognizedImpactTarget (t : String) : Prop :=
  t = "Revenue" ∨ t = "COGS" ∨ t = "Labor" ∨ t = "Ops (Fixed)" ∨ t = "Rent" ∨ t = "Capex"

/-- Two rows agree on every field, the breakdown column of name `nm` possibly
excepted. -/
def agreeExcept (nm : String) (r₁ r₂ : OutputRow) : Prop :=
  r₁.year = r₂.year ∧ r₁.month = r₂.month ∧ r₁.quarter = r₂.quarter ∧
  r₁.projectMonth = r₂.projectMonth ∧ r₁.projectYear = r₂.projectYear ∧
  r₁.storeRevenue = r₂.storeRevenue ∧ r₁.storeCOGS = r₂.storeCOGS ∧
  r₁.storeLabor = r₂.storeLabor ∧ r₁.storeBonus = r₂.storeBonus ∧
  r₁.storeOpsEx = r₂.storeOpsEx ∧ r₁.exUtil = r₂.exUtil ∧ r₁.exIns = r₂.exIns ∧
  r₁.exMaint = r₂.exMaint ∧ r₁.exMktg = r₂.exMktg ∧ r₁.exProf = r₂.exProf ∧
  r₁.storeRentEx = r₂.storeRentEx ∧ r₁.propDebt = r₂.propDebt ∧
  r₁.storeNet = r₂.storeNet ∧ r₁.propNet = r₂.propNet ∧
  r₁.storeCum = r₂.storeCum ∧ r₁.propCum = r₂.propCum ∧
  r₁.ownerCum = r₂.ownerCum ∧ r₁.ownerCashFlow = r₂.ownerCashFlow ∧
  r₁.capex = r₂.capex ∧ r₁.netEventImpact = r₂.netEventImpact ∧
  r₁.storeNOIPre = r₂.storeNOIPre ∧
  ∀ s, s ≠ nm → r₁.eventCols s = r₂.eventCols s

/-- Two rows agree on every store-side field. -/
def storeEq (r₁ r₂ : OutputRow) : Prop :=
  r₁.storeRevenue = r₂.storeRevenue ∧ r₁.storeCOGS = r₂.storeCOGS ∧
  r₁.storeLabor = r₂.storeLabor ∧ r₁.storeBonus = r₂.storeBonus ∧
  r₁.storeOpsEx = r₂.storeOpsEx ∧ r₁.exUtil = r₂.exUtil ∧ r₁.exIns = r₂.exIns ∧
  r₁.exMaint = r₂.exMaint ∧ r₁.exMktg = r₂.exMktg ∧ r₁.exProf = r₂.exProf ∧
  r₁.storeRentEx = r₂.storeRentEx ∧ r₁.storeNet = r₂.storeNet ∧
  r₁.storeCum = r₂.storeCum ∧ r₁.storeNOIPre = r₂.storeNOIPre

/-- An event with an unrecognized impact target, used by the C5 witness. -/
def badEvent : BusinessEvent :=
  { name := "Mystery", start_month := 1, frequency := "Monthly",
    impact_target := "Bonus", value_type := "Fixed Amount ($)", value := 777 }

/-- A monthly Property-side Ops event, used by the C7 witness. -/
def roofEvent : BusinessEvent :=
  { name := "Roof Repair", start_month := 1, frequency := "Monthly",
    impact_target := "Ops (Fixed)", value_type := "Fixed Amount ($)", value := 100,
    affected_entity := "Property" }

/-- A monthly Store-side Ops event, used by the C7 witness. -/
def storeOpsEvent : BusinessEvent :=
  { name := "New Product Cost", start_month := 1, frequency := "Monthly",
    impact_target := "Ops (Fixed)", value_type := "Fixed Amount ($)", value := 500,
    affected_entity := "Store" }

/-- Modelled from the spec: the ModelConfig fields of spec §3 that drive the
balance-sheet columns (initial property value, property appreciation rate,
intangible-asset allocation); they are absent from the `FinancialModel` dataclass
of `src/model.py` -- only its tests and the dashboard reference them. -/
structure AcquisitionAssets where
  initial_property_value : ℚ
  property_appreciation_rate : ℚ
  intangible_assets : ℚ

/-- Modelled from the spec: the monthly interest rate `r = (annual_rate_pct/100)/12`
of spec §4.1. -/
def monthlyRate (cfg : FinancialModel) : ℚ := (cfg.interest_rate / 100) / 12

/-- Modelled from the spec: the loan-balance roll-forward of spec §4.1 -- each
month, `interest = balance × r`, `principal portion = payment − interest`,
`balance −= principal portion`, with the constant payment of
`calculate_monthly_payment`; absent from `src/model.py`, asserted by its tests. -/
def loanBalanceAt (cfg : FinancialModel) : ℕ → ℚ
  | 0 => cfg.loan_amount
  | m + 1 =>
    loanBalanceAt cfg m -
      (monthly_debt_service cfg - loanBalanceAt cfg m * monthlyRate cfg)

/-- Modelled from the spec: the property value stepped annually by ownership year
(spec §4.2 lists property appreciation among the annual growth rates). -/
def propertyValueAt (aa : AcquisitionAssets) (m : ℕ) : ℚ :=
  aa.initial_property_value * (1 + aa.property_appreciation_rate / 100) ^ project_year_idx m

/-- Modelled from the spec: the running loan-balance / property-value / equity /
intangible-asset columns of OutputRow (spec §3); equity is value minus remaining
balance, intangibles stay at the configured allocation. -/
structure BalanceRow where
  loanBalance : ℚ
  propertyValue : ℚ
  propertyEquity : ℚ
  intangibleAssets : ℚ

/-- Modelled from the spec: the balance columns of the row of month `m`. -/
def balanceRowAt (cfg : FinancialModel) (aa : AcquisitionAssets) (m : ℕ) : BalanceRow :=
  { loanBalance := loanBalanceAt cfg m,
    propertyValue := propertyValueAt aa m,
    propertyEquity := propertyValueAt aa m - loanBalanceAt cfg m,
    intangibleAssets := aa.intangible_assets }

/-- Modelled from the spec: the full emission of spec §3 -- every emitted cash row
paired with its balance columns. -/
def projRowsFull (cfg : FinancialModel) (aa : AcquisitionAssets) (start : Date)
    (n : ℕ) : List (OutputRow × BalanceRow) :=
  (projRows cfg start n).zip ((List.range n).map fun k => balanceRowAt cfg aa (k + 1))

/-! ### Basic lemmas about the run -/

@[simp] theorem Impacts.zero_rev : (0 : Impacts).rev = 0 := rfl
@[simp] theorem Impacts.zero_cogs : (0 : Impacts).cogs = 0 := rfl
@[simp] theorem Impacts.zero_labor : (0 : Impacts).labor = 0 := rfl
@[simp] theorem Impacts.zero_ops : (0 : Impacts).ops = 0 := rfl
@[simp] theorem Impacts.zero_rent : (0 : Impacts).rent = 0 := rfl
@[simp] theorem Impacts.zero_capexStore : (0 : Impacts).capexStore = 0 := rfl
@[simp] theorem Impacts.zero_capexProp : (0 : Impacts).capexProp = 0 := rfl
@[simp] theorem Impacts.zero_propOps : (0 : Impacts).propOps = 0 := rfl

@[simp] theorem Impacts.add_rev (a b : Impacts) : (a + b).rev = a.rev + b.rev := rfl
@[simp] theorem Impacts.add_cogs (a b : Impacts) : (a + b).cogs = a.cogs + b.cogs := rfl
@[simp] theorem Impacts.add_labor (a b : Impacts) : (a + b).labor = a.labor + b.labor := rfl
@[simp] theorem Impacts.add_ops (a b : Impacts) : (a + b).ops = a.ops + b.ops := rfl
@[simp] theorem Impacts.add_rent (a b : Impacts) : (a + b).rent = a.rent + b.rent := rfl
@[simp] theorem Impacts.add_capexStore (a b : Impacts) :
    (a + b).capexStore = a.capexStore + b.capexStore := rfl
@[simp] theorem Impacts.add_capexProp (a b : Impacts) :
    (a + b).capexProp = a.capexProp + b.capexProp := rfl
@[simp] theorem Impacts.add_propOps (a b : Impacts) :
    (a + b).propOps = a.propOps + b.propOps := rfl

theorem projRows_length (cfg : FinancialModel) (start : Date) (n : ℕ) :
    (projRows cfg start n).length = n := by
  induction n with
  | zero => rfl
  | succ n ih => simp [projRows, ih]

/-- Rows are final once emitted: the row of month `k+1` in any long-enough run is
the one computed from the first `k` rows. -/
theorem projRows_getD (cfg : FinancialModel) (start : Date) :
    ∀ {n k : ℕ}, k < n →
      (projRows cfg start n).getD k defaultRow =
        monthRow cfg start (projRows cfg start k) (k + 1) := by
  intro n
  induction n with
  | zero => intro k h; omega
  | succ n ih =>
    intro k h
    by_cases hk : k < n
    · rw [projRows, List.getD_append _ _ _ _ (by rw [projRows_length]; exact hk)]
      exact ih hk
    · have hkn : k = n := by omega
      subst hkn
      rw [projRows, List.getD_eq_getElem?_getD, List.getElem?_append_right (by
        rw [projRows_length])]
      simp [projRows_length]

/-- `rowAt` does not depend on the run length past `m`. -/
theorem rowAt_eq (cfg : FinancialModel) (start : Date) {n m : ℕ}
    (h1 : 1 ≤ m) (h2 : m ≤ n) :
    rowAt cfg start n m = monthRow cfg start (projRows cfg start (m - 1)) m := by
  have := projRows_getD cfg start (n := n) (k := m - 1) (by omega)
  rw [rowAt, this]
  congr 1
  omega

/-! ### Unfolding equations for the emitted fields -/

theorem monthRow_storeRevenue (cfg : FinancialModel) (start : Date)
    (prev : List OutputRow) (m : ℕ) :
    (monthRow cfg start prev m).storeRevenue =
      monthly_base_rev cfg start m +
        (monthImpacts cfg start (histOf prev) m cfg.events).rev := rfl

theorem monthRow_storeCOGS (cfg : FinancialModel) (start : Date)
    (prev : List OutputRow) (m : ℕ) :
    (monthRow cfg start prev m).storeCOGS =
      -(cogs_base_amt cfg start m +
        (monthImpacts cfg start (histOf prev) m cfg.events).cogs) := rfl

theorem monthRow_storeLabor (cfg : FinancialModel) (start : Date)
    (prev : List OutputRow) (m : ℕ) :
    (monthRow cfg start prev m).storeLabor =
      -(store_labor cfg start m +
        (monthImpacts cfg start (histOf prev) m cfg.events).labor) := rfl

theorem monthRow_storeOpsEx (cfg : FinancialModel) (start : Date)
    (prev : List OutputRow) (m : ℕ) :
    (monthRow cfg start prev m).storeOpsEx =
      -(store_ops_expenses cfg m +
        (monthImpacts cfg start (histOf prev) m cfg.events).ops) := rfl

theorem monthRow_storeRentEx (cfg : FinancialModel) (start : Date)
    (prev : List OutputRow) (m : ℕ) :
    (monthRow cfg start prev m).storeRentEx =
      -(store_rent_expense cfg m +
        (monthImpacts cfg start (histOf prev) m cfg.events).rent) := rfl

theorem monthRow_storeNOIPre (cfg : FinancialModel) (start : Date)
    (prev : List OutputRow) (m : ℕ) :
    (monthRow cfg start prev m).storeNOIPre =
      (monthly_base_rev cfg start m +
          (monthImpacts cfg start (histOf prev) m cfg.events).rev) -
        ((cogs_base_amt cfg start m +
            (monthImpacts cfg start (histOf prev) m cfg.events).cogs) +
          (store_labor cfg start m +
            (monthImpacts cfg start (histOf prev) m cfg.events).labor) +
          (store_ops_expenses cfg m +
            (monthImpacts cfg start (histOf prev) m cfg.events).ops) +
          (store_rent_expense cfg m +
            (monthImpacts cfg start (histOf prev) m cfg.events).rent)) := rfl

theorem monthRow_storeNet (cfg : FinancialModel) (start : Date)
    (prev : List OutputRow) (m : ℕ) :
    (monthRow cfg start prev m).storeNet =
      (monthRow cfg start prev m).storeNOIPre - 0 -
        (monthImpacts cfg start (histOf prev) m cfg.events).capexStore := rfl

theorem monthRow_propNet (cfg : FinancialModel) (start : Date)
    (prev : List OutputRow) (m : ℕ) :
    (monthRow cfg start prev m).propNet =
      ((store_rent_expense cfg m +
          (monthImpacts cfg start (histOf prev) m cfg.events).rent) +
        cfg.residential_rent_income * rent_growth_factor cfg m) -
        monthly_debt_service cfg -
        (monthImpacts cfg start (histOf prev) m cfg.events).propOps -
        (monthImpacts cfg start (histOf prev) m cfg.events).capexProp := rfl

theorem monthRow_ownerCashFlow (cfg : FinancialModel) (start : Date)
    (prev : List OutputRow) (m : ℕ) :
    (monthRow cfg start prev m).ownerCashFlow =
      (monthRow cfg start prev m).storeNet + (monthRow cfg start prev m).propNet := rfl

theorem monthRow_storeCum (cfg : FinancialModel) (start : Date)
    (prev : List OutputRow) (m : ℕ) :
    (monthRow cfg start prev m).storeCum =
      ((prev.getLast?).map OutputRow.storeCum).getD (-cfg.initial_capex) +
        (monthRow cfg start prev m).storeNet := rfl

theorem monthRow_propCum (cfg : FinancialModel) (start : Date)
    (prev : List OutputRow) (m : ℕ) :
    (monthRow cfg start prev m).propCum =
      ((prev.getLast?).map OutputRow.propCum).getD 0 +
        (monthRow cfg start prev m).propNet := rfl

theorem monthRow_ownerCum (cfg : FinancialModel) (start : Date)
    (prev : List OutputRow) (m : ℕ) :
    (monthRow cfg start prev m).ownerCum =
      ((prev.getLast?).map OutputRow.ownerCum).getD (-cfg.initial_capex) +
        (monthRow cfg start prev m).ownerCashFlow := rfl

theorem monthRow_capex (cfg : FinancialModel) (start : Date)
    (prev : List OutputRow) (m : ℕ) :
    (monthRow cfg start prev m).capex =
      -(if m = 1 then cfg.initial_capex
        else (monthImpacts cfg start (histOf prev) m cfg.events).capexStore +
          (monthImpacts cfg start (histOf prev) m cfg.events).capexProp) := rfl

theorem monthRow_eventCols (cfg : FinancialModel) (start : Date)
    (prev : List OutputRow) (m : ℕ) :
    (monthRow cfg start prev m).eventCols =
      monthBreakdown cfg start (histOf prev) m cfg.events := rfl

theorem monthRow_netEventImpact (cfg : FinancialModel) (start : Date)
    (prev : List OutputRow) (m : ℕ) :
    (monthRow cfg start prev m).netEventImpact =
      (monthImpacts cfg start (histOf prev) m cfg.events).rev -
        ((monthImpacts cfg start (histOf prev) m cfg.events).cogs +
          (monthImpacts cfg start (histOf prev) m cfg.events).labor +
          (monthImpacts cfg start (histOf prev) m cfg.events).ops +
          (monthImpacts cfg start (histOf prev) m cfg.events).rent +
          (monthImpacts cfg start (histOf prev) m cfg.events).propOps) -
        ((monthImpacts cfg start (histOf prev) m cfg.events).capexStore +
          (monthImpacts cfg start (histOf prev) m cfg.events).capexProp) := rfl

/-- Two output rows are equal once all their fields are. -/
theorem OutputRow.ext' {r₁ r₂ : OutputRow}
    (h : r₁.year = r₂.year ∧ r₁.month = r₂.month ∧ r₁.quarter = r₂.quarter ∧
      r₁.projectMonth = r₂.projectMonth ∧ r₁.projectYear = r₂.projectYear ∧
      r₁.storeRevenue = r₂.storeRevenue ∧ r₁.storeCOGS = r₂.storeCOGS ∧
      r₁.storeLabor = r₂.storeLabor ∧ r₁.storeBonus = r₂.storeBonus ∧
      r₁.storeOpsEx = r₂.storeOpsEx ∧ r₁.exUtil = r₂.exUtil ∧ r₁.exIns = r₂.exIns ∧
      r₁.exMaint = r₂.exMaint ∧ r₁.exMktg = r₂.exMktg ∧ r₁.exProf = r₂.exProf ∧
      r₁.storeRentEx = r₂.storeRentEx ∧ r₁.propDebt = r₂.propDebt ∧
      r₁.storeNet = r₂.storeNet ∧ r₁.propNet = r₂.propNet ∧
      r₁.storeCum = r₂.storeCum ∧ r₁.propCum = r₂.propCum ∧
      r₁.ownerCum = r₂.ownerCum ∧ r₁.ownerCashFlow = r₂.ownerCashFlow ∧
      r₁.capex = r₂.capex ∧ r₁.netEventImpact = r₂.netEventImpact ∧
      r₁.storeNOIPre = r₂.storeNOIPre ∧ r₁.eventCols = r₂.eventCols) :
    r₁ = r₂ := by
  obtain ⟨h1, h2, h3, h4, h5, h6, h7, h8, h9, h10, h11, h12, h13, h14, h15, h16, h17,
    h18, h19, h20, h21, h22, h23, h24, h25, h26, h27⟩ := h
  cases r₁
  cases r₂
  simp_all

/-- Summing event impacts over a cons. -/
theorem monthImpacts_cons (cfg : FinancialModel) (start : Date) (noiHist : List ℚ)
    (m : ℕ) (e : BusinessEvent) (l : List BusinessEvent) :
    monthImpacts cfg start noiHist m (e :: l) =
      eventImpact cfg start noiHist m e + monthImpacts cfg start noiHist m l := by
  simp [monthImpacts]

theorem monthImpacts_nil (cfg : FinancialModel) (start : Date) (noiHist : List ℚ)
    (m : ℕ) : monthImpacts cfg start noiHist m [] = 0 := rfl

/-- The engine reads only the fields of the configuration, so replacing the event
list changes none of the monthly base figures. -/
theorem eventImpact_events_irrel (cfg : FinancialModel) (l : List BusinessEvent)
    (start : Date) (noiHist : List ℚ) (m : ℕ) (e : BusinessEvent) :
    eventImpact { cfg with events := l } start noiHist m e =
      eventImpact cfg start noiHist m e := rfl

theorem appliedVal_events_irrel (cfg : FinancialModel) (l : List BusinessEvent)
    (start : Date) (noiHist : List ℚ) (m : ℕ) (e : BusinessEvent) :
    appliedVal { cfg with events := l } start noiHist m e =
      appliedVal cfg start noiHist m e := rfl

theorem rowAt_succ (cfg : FinancialModel) (start : Date) {n k : ℕ} (h : k + 1 ≤ n) :
    rowAt cfg start n (k + 1) = monthRow cfg start (projRows cfg start k) (k + 1) :=
  rowAt_eq cfg start (by omega) h

theorem allocate_zero (e : BusinessEvent) : allocate e 0 = 0 := by
  unfold allocate
  split_ifs <;> rfl

theorem histOf_getD (prev : List OutputRow) (k : ℕ) (hk : k < prev.length) :
    (histOf prev).getD k 0 = (prev.getD k defaultRow).storeNOIPre := by
  unfold histOf
  rw [List.getD_eq_getElem?_getD, List.getElem?_map, List.getD_eq_getElem?_getD,
    List.getElem?_eq_getElem hk]
  simp

/-- Entry `k` of the NOI history of a long-enough run is the finalized
`Store_NOI_Pre` of month `k+1`. -/
theorem histOf_proj_getD (cfg : FinancialModel) (start : Date) {n j k : ℕ}
    (hk : k < j) (hn : k + 1 ≤ n) :
    (histOf (projRows cfg start j)).getD k 0 = (rowAt cfg start n (k + 1)).storeNOIPre := by
  rw [histOf_getD _ _ (by rw [projRows_length]; exact hk),
    projRows_getD cfg start hk, rowAt_eq cfg start (by omega) hn]
  rfl

/-! ### Evaluating the percentage value path -/

theorem strContains_pp : strContains "Percentage (%)" "Percent" = true := by decide

theorem strContains_pr : strContains "Percentage (%)" "Revenue" = false := by decide

theorem strContains_pc : strContains "Percentage (%)" "COGS" = false := by decide

theorem strContains_po : strContains "Percentage (%)" "Ops" = false := by decide

theorem strContains_pn : strContains "Percentage (%)" "NOI" = false := by decide

theorem strContains_pq : strContains "Percentage (%)" "Previous Quarter" = false := by decide

/-- For the canonical `"Percentage (%)"` value type no legacy substring fallback
fires, so the basis is the explicit `pct_basis` field. -/
theorem basis_to_use_pct (e : BusinessEvent) (h : e.value_type = "Percentage (%)") :
    basis_to_use e = e.pct_basis := by
  unfold basis_to_use
  rw [h]
  simp [strContains_pr, strContains_pc, strContains_po, strContains_pn, strContains_pq]

/-- A `"Percentage (%)"` event's value is `basis × value/100`. -/
theorem eventVal_pct (cfg : FinancialModel) (start : Date) (noiHist : List ℚ) (m : ℕ)
    (e : BusinessEvent) (h : e.value_type = "Percentage (%)") :
    eventVal cfg start noiHist m e = model_base_val cfg start noiHist m e * (e.value / 100) := by
  unfold eventVal
  rw [h]
  simp [strContains_pp]

theorem model_base_val_rev (cfg : FinancialModel) (start : Date) (noiHist : List ℚ)
    (m : ℕ) (e : BusinessEvent) (h : basis_to_use e = "Revenue") :
    model_base_val cfg start noiHist m e = monthly_base_rev cfg start m := by
  simp [model_base_val, h]

theorem model_base_val_noi (cfg : FinancialModel) (start : Date) (noiHist : List ℚ)
    (m : ℕ) (e : BusinessEvent) (h : basis_to_use e = "NOI") :
    model_base_val cfg start noiHist m e = noi_lookback noiHist m (noi_window e) := by
  simp [model_base_val, h]

/-! ### Claims -/

/-- C6: `calculate_monthly_payment(principal, annual_rate, years)` returns 0 for
every `principal ≤ 0`; returns `principal / (years × 12)` (straight-line) for every
`principal > 0` with `annual_rate ≤ 0`; and otherwise returns
`principal · r(1+r)^n / ((1+r)^n − 1)` with `r = (annual_rate/100)/12` and
`n = years × 12`.  In particular `calculate_monthly_payment(120000, 0, 10) = 1000.0`
and `calculate_monthly_payment(100000, 5.0, 30) ≈ 536.82` (within one cent). -/
theorem calculate_monthly_payment_spec :
    (∀ (p r : ℚ) (y : ℕ), p ≤ 0 → calculate_monthly_payment p r y = 0) ∧
    (∀ (p r : ℚ) (y : ℕ), 0 < p → r ≤ 0 →
      calculate_monthly_payment p r y = p / ((y : ℚ) * 12)) ∧
    (∀ (p r : ℚ) (y : ℕ), 0 < p → 0 < r →
      calculate_monthly_payment p r y =
        p * (((r / 100) / 12) * (1 + (r / 100) / 12) ^ (y * 12)) /
          ((1 + (r / 100) / 12) ^ (y * 12) - 1)) ∧
    calculate_monthly_payment 120000 0 10 = 1000 ∧
    |calculate_monthly_payment 100000 5 30 - 53682 / 100| < 1 / 100 := by
  refine ⟨?_, ?_, ?_, ?_, ?_⟩
  · intro p r y hp
    simp [calculate_monthly_payment, hp]
  · intro p r y hp hr
    simp [calculate_monthly_payment, not_le.mpr hp, hr]
  · intro p r y hp hr
    simp [calculate_monthly_payment, not_le.mpr hp, not_le.mpr hr]
  · norm_num [calculate_monthly_payment]
  · norm_num [calculate_monthly_payment, abs_lt]

/-- Event impacts of a month are a sum over the event list, hence invariant under
permutation. -/
theorem monthImpacts_perm (cfg : FinancialModel) (start : Date) (h : List ℚ) (m : ℕ)
    {l₁ l₂ : List BusinessEvent} (hp : l₁.Perm l₂) :
    monthImpacts cfg start h m l₁ = monthImpacts cfg start h m l₂ :=
  (hp.map (eventImpact cfg start h m)).sum_eq

/-- The per-name breakdown columns are likewise permutation invariant. -/
theorem monthBreakdown_perm (cfg : FinancialModel) (start : Date) (h : List ℚ) (m : ℕ)
    {l₁ l₂ : List BusinessEvent} (hp : l₁.Perm l₂) :
    monthBreakdown cfg start h m l₁ = monthBreakdown cfg start h m l₂ := by
  funext nm
  exact ((hp.filter (fun e => e.name = nm)).map (appliedVal cfg start h m)).sum_eq

/-- A single month's row is unchanged by permuting the event list. -/
theorem monthRow_perm (cfg : FinancialModel) (start : Date) (prev : List OutputRow)
    (m : ℕ) {l₂ : List BusinessEvent} (hp : cfg.events.Perm l₂) :
    monthRow cfg start prev m = monthRow { cfg with events := l₂ } start prev m := by
  have hImp : monthImpacts { cfg with events := l₂ } start (histOf prev) m
      ({ cfg with events := l₂ } : FinancialModel).events =
      monthImpacts cfg start (histOf prev) m cfg.events := by
    show monthImpacts cfg start (histOf prev) m l₂ =
      monthImpacts cfg start (histOf prev) m cfg.events
    exact (monthImpacts_perm cfg start _ m hp).symm
  have hBrk : monthBreakdown { cfg with events := l₂ } start (histOf prev) m
      ({ cfg with events := l₂ } : FinancialModel).events =
      monthBreakdown cfg start (histOf prev) m cfg.events := by
    show monthBreakdown cfg start (histOf prev) m l₂ =
      monthBreakdown cfg start (histOf prev) m cfg.events
    exact (monthBreakdown_perm cfg start _ m hp).symm
  apply OutputRow.ext'
  refine ⟨rfl, rfl, rfl, rfl, rfl, ?_, ?_, ?_, rfl, ?_, rfl, rfl, rfl, rfl, rfl, ?_,
    rfl, ?_, ?_, ?_, ?_, ?_, ?_, ?_, ?_, ?_, ?_⟩
  · rw [monthRow_storeRevenue, monthRow_storeRevenue, hImp]
    try rfl
  · rw [monthRow_storeCOGS, monthRow_storeCOGS, hImp]
    try rfl
  · rw [monthRow_storeLabor, monthRow_storeLabor, hImp]
    try rfl
  · rw [monthRow_storeOpsEx, monthRow_storeOpsEx, hImp]
    try rfl
  · rw [monthRow_storeRentEx, monthRow_storeRentEx, hImp]
    try rfl
  · rw [monthRow_storeNet, monthRow_storeNet, monthRow_storeNOIPre,
      monthRow_storeNOIPre, hImp]
    try rfl
  · rw [monthRow_propNet, monthRow_propNet, hImp]
    try rfl
  · rw [monthRow_storeCum, monthRow_storeCum, monthRow_storeNet, monthRow_storeNet,
      monthRow_storeNOIPre, monthRow_storeNOIPre, hImp]
    try rfl
  · rw [monthRow_propCum, monthRow_propCum, monthRow_propNet, monthRow_propNet, hImp]
    try rfl
  · rw [monthRow_ownerCum, monthRow_ownerCum, monthRow_ownerCashFlow,
      monthRow_ownerCashFlow, monthRow_storeNet, monthRow_storeNet,
      monthRow_storeNOIPre, monthRow_storeNOIPre, monthRow_propNet, monthRow_propNet,
      hImp]
    try rfl
  · rw [monthRow_ownerCashFlow, monthRow_ownerCashFlow, monthRow_storeNet,
      monthRow_storeNet, monthRow_storeNOIPre, monthRow_storeNOIPre, monthRow_propNet,
      monthRow_propNet, hImp]
    try rfl
  · rw [monthRow_capex, monthRow_capex, hImp]
    try rfl
  · rw [monthRow_netEventImpact, monthRow_netEventImpact, hImp]
    try rfl
  · rw [monthRow_storeNOIPre, monthRow_storeNOIPre, hImp]
    try rfl
  · rw [monthRow_eventCols, monthRow_eventCols, hBrk]
    try rfl

/-- C4: event order does not affect results: for every configuration, start date
and run length, permuting the event list yields the same output rows, all fields
equal under exact arithmetic -- within a month every percentage basis is computed
from pre-event base figures and impacts accumulate additively, and the NOI lookback
reads only finalized prior rows, which are equal by induction. -/
theorem event_order_invariance :
    ∀ (cfg : FinancialModel) (start : Date) (n : ℕ) (l₂ : List BusinessEvent),
      cfg.events.Perm l₂ →
      projRows cfg start n = projRows { cfg with events := l₂ } start n := by
  intro cfg start n l₂ hp
  induction n with
  | zero => rfl
  | succ n ih =>
    rw [projRows, projRows, ih,
      monthRow_perm cfg start (projRows { cfg with events := l₂ } start n) (n + 1) hp]

/-- Witness for C4: swapping two concrete events leaves a 12-month run unchanged. -/
theorem event_order_invariance_witness :
    projRows { wCfg with events := [promoEvent, renoEvent] } wStart 12 =
      projRows { wCfg with events := [renoEvent, promoEvent] } wStart 12 :=
  event_order_invariance { wCfg with events := [promoEvent, renoEvent] } wStart 12
    [renoEvent, promoEvent] (List.Perm.swap renoEvent promoEvent [])

theorem map_eq_of_forall₂ {R : OutputRow → OutputRow → Prop} {f : OutputRow → ℚ}
    (hf : ∀ a b, R a b → f a = f b) :
    ∀ {l₁ l₂ : List OutputRow}, List.Forall₂ R l₁ l₂ → l₁.map f = l₂.map f := by
  intro l₁ l₂ h
  induction h with
  | nil => rfl
  | cons hab hrest ih => simp [hf _ _ hab, ih]
  
theorem getLastD_eq_of_map_eq {l₁ l₂ : List OutputRow} {f : OutputRow → ℚ}
    (h : l₁.map f = l₂.map f) (c : ℚ) :
    ((l₁.getLast?).map f).getD c = ((l₂.getLast?).map f).getD c := by
  rw [← List.getLast?_map, ← List.getLast?_map, h]

theorem eventImpact_malformed (cfg : FinancialModel) (start : Date) (h : List ℚ)
    (m : ℕ) (e : BusinessEvent)
    (hmal : ¬recognizedFrequency e.frequency ∨ ¬recognizedValueType e.value_type ∨
      ¬recognizedImpactTarget e.impact_target) :
    eventImpact cfg start h m e = 0 := by
  rcases hmal with hf | hv | ht
  · have happ : eventApplies e m = false := by
      unfold recognizedFrequency at hf
      push_neg at hf
      obtain ⟨h1, h2, h3, h4⟩ := hf
      unfold eventApplies
      simp [h1, h2, h3, h4]
    simp [eventImpact, happ]
  · have hval : eventVal cfg start h m e = 0 := by
      unfold recognizedValueType at hv
      push_neg at hv
      obtain ⟨h1, h2, h3⟩ := hv
      unfold eventVal
      simp [h1, h2, h3]
    by_cases happ : eventApplies e m
    · simp [eventImpact, happ, hval, allocate_zero]
    · simp [eventImpact, happ]
  · have hall : ∀ v, allocate e v = 0 := by
      intro v
      unfold recognizedImpactTarget at ht
      push_neg at ht
      obtain ⟨h1, h2, h3, h4, h5, h6⟩ := ht
      unfold allocate
      simp [h1, h2, h3, h4, h5, h6]
    by_cases happ : eventApplies e m
    · simp [eventImpact, happ, hall]
    · simp [eventImpact, happ]

/-- Malformed events leave every month's accumulators, NOI history and hence
every field but their own breakdown column untouched, for the whole run. -/
theorem forall₂_agree_cons_malformed (cfg : FinancialModel) (start : Date)
    (e : BusinessEvent)
    (hmal : ¬recognizedFrequency e.frequency ∨ ¬recognizedValueType e.value_type ∨
      ¬recognizedImpactTarget e.impact_target) :
    ∀ n : ℕ, List.Forall₂ (agreeExcept e.name)
      (projRows { cfg with events := e :: cfg.events } start n)
      (projRows cfg start n) := by
  intro n
  induction n with
  | zero => exact List.Forall₂.nil
  | succ n ih =>
    rw [projRows, projRows]
    refine List.rel_append ih (List.Forall₂.cons ?_ List.Forall₂.nil)
    have hhist : histOf (projRows { cfg with events := e :: cfg.events } start n) =
        histOf (projRows cfg start n) :=
      map_eq_of_forall₂ (fun a b hab => hab.2.2.2.2.2.2.2.2.2.2.2.2.2.2.2.2.2.2.2.2.2.2.2.2.2.1) ih
    set A := projRows { cfg with events := e :: cfg.events } start n with hA
    set B := projRows cfg start n with hB
    have hmapS : A.map OutputRow.storeCum = B.map OutputRow.storeCum :=
      map_eq_of_forall₂ (fun a b hab => hab.2.2.2.2.2.2.2.2.2.2.2.2.2.2.2.2.2.2.2.1) ih
    have hmapP : A.map OutputRow.propCum = B.map OutputRow.propCum :=
      map_eq_of_forall₂ (fun a b hab => hab.2.2.2.2.2.2.2.2.2.2.2.2.2.2.2.2.2.2.2.2.1) ih
    have hmapO : A.map OutputRow.ownerCum = B.map OutputRow.ownerCum :=
      map_eq_of_forall₂ (fun a b hab => hab.2.2.2.2.2.2.2.2.2.2.2.2.2.2.2.2.2.2.2.2.2.1) ih
    have himp : monthImpacts { cfg with events := e :: cfg.events } start (histOf A)
        (n + 1) ({ cfg with events := e :: cfg.events } : FinancialModel).events =
        monthImpacts cfg start (histOf B) (n + 1) cfg.events := by
      show monthImpacts cfg start (histOf A) (n + 1) (e :: cfg.events) = _
      rw [hhist, monthImpacts_cons, eventImpact_malformed cfg start _ _ e hmal, zero_add]
    have hbrk : ∀ s, s ≠ e.name →
        monthBreakdown { cfg with events := e :: cfg.events } start (histOf A) (n + 1)
          ({ cfg with events := e :: cfg.events } : FinancialModel).events s =
        monthBreakdown cfg start (histOf B) (n + 1) cfg.events s := by
      intro s hs
      show monthBreakdown cfg start (histOf A) (n + 1) (e :: cfg.events) s = _
      rw [hhist]
      unfold monthBreakdown
      rw [List.filter_cons_of_neg (by simp [Ne.symm hs])]
    refine ⟨rfl, rfl, rfl, rfl, rfl, ?_, ?_, ?_, rfl, ?_, rfl, rfl, rfl, rfl, rfl, ?_,
      rfl, ?_, ?_, ?_, ?_, ?_, ?_, ?_, ?_, ?_, ?_⟩
    · rw [monthRow_storeRevenue, monthRow_storeRevenue, himp]
      try rfl
    · rw [monthRow_storeCOGS, monthRow_storeCOGS, himp]
      try rfl
    · rw [monthRow_storeLabor, monthRow_storeLabor, himp]
      try rfl
    · rw [monthRow_storeOpsEx, monthRow_storeOpsEx, himp]
      try rfl
    · rw [monthRow_storeRentEx, monthRow_storeRentEx, himp]
      try rfl
    · rw [monthRow_storeNet, monthRow_storeNet, monthRow_storeNOIPre,
        monthRow_storeNOIPre, himp]
      try rfl
    · rw [monthRow_propNet, monthRow_propNet, himp]
      try rfl
    · rw [monthRow_storeCum, monthRow_storeCum, monthRow_storeNet, monthRow_storeNet,
        monthRow_storeNOIPre, monthRow_storeNOIPre, himp,
        getLastD_eq_of_map_eq hmapS]
      try rfl
    · rw [monthRow_propCum, monthRow_propCum, monthRow_propNet, monthRow_propNet, himp,
        getLastD_eq_of_map_eq hmapP]
      try rfl
    · rw [monthRow_ownerCum, monthRow_ownerCum, monthRow_ownerCashFlow,
        monthRow_ownerCashFlow, monthRow_storeNet, monthRow_storeNet,
        monthRow_storeNOIPre, monthRow_storeNOIPre, monthRow_propNet, monthRow_propNet,
        himp, getLastD_eq_of_map_eq hmapO]
      try rfl
    · rw [monthRow_ownerCashFlow, monthRow_ownerCashFlow, monthRow_storeNet,
        monthRow_storeNet, monthRow_storeNOIPre, monthRow_storeNOIPre,
        monthRow_propNet, monthRow_propNet, himp]
      try rfl
    · rw [monthRow_capex, monthRow_capex, himp]
      try rfl
    · rw [monthRow_netEventImpact, monthRow_netEventImpact, himp]
      try rfl
    · rw [monthRow_storeNOIPre, monthRow_storeNOIPre, himp]
      try rfl
    · intro s hs
      rw [monthRow_eventCols, monthRow_eventCols, hbrk s hs]
      try rfl

/-- C5: an event whose frequency, value type or impact target string is not one
the engine recognizes contributes no impact to any ledger accumulator in any
month; the run still emits the full sequence of rows, identical in all fields to
the run without that event, apart from the event's own breakdown column (the
embedding is total: no error is ever raised). -/
theorem malformed_event_noop :
    ∀ (cfg : FinancialModel) (start : Date) (n : ℕ) (e : BusinessEvent),
      (¬recognizedFrequency e.frequency ∨ ¬recognizedValueType e.value_type ∨
        ¬recognizedImpactTarget e.impact_target) →
      (projRows { cfg with events := e :: cfg.events } start n).length = n ∧
      List.Forall₂ (agreeExcept e.name)
        (projRows { cfg with events := e :: cfg.events } start n)
        (projRows cfg start n) :=
  fun cfg start n e hmal =>
    ⟨projRows_length _ _ n, forall₂_agree_cons_malformed cfg start e hmal n⟩

/-- Witness for C5: an event with impact target `"Bonus"` next to the promo event,
in a 3-month run. -/
theorem malformed_event_noop_witness :
    (projRows { wCfg with events := [badEvent, promoEvent] } wStart 3).length = 3 ∧
    List.Forall₂ (agreeExcept "Mystery")
      (projRows { wCfg with events := [badEvent, promoEvent] } wStart 3)
      (projRows { wCfg with events := [promoEvent] } wStart 3) :=
  malformed_event_noop { wCfg with events := [promoEvent] } wStart 3 badEvent
    (Or.inr (Or.inr (by unfold recognizedImpactTarget; decide)))

theorem eventImpact_ops_property (cfg : FinancialModel) (start : Date) (h : List ℚ)
    (m : ℕ) (e : BusinessEvent) (ht : e.impact_target = "Ops (Fixed)")
    (hent : e.affected_entity = "Property") :
    eventImpact cfg start h m e = { propOps := appliedVal cfg start h m e } := by
  unfold eventImpact appliedVal
  by_cases happ : eventApplies e m
  · simp only [happ, if_true]
    unfold allocate
    rw [ht, hent]
    simp
  · simp only [happ, Bool.false_eq_true, if_false]
    rfl

theorem eventImpact_ops_store (cfg : FinancialModel) (start : Date) (h : List ℚ)
    (m : ℕ) (e : BusinessEvent) (ht : e.impact_target = "Ops (Fixed)")
    (hent : e.affected_entity = "Store") :
    eventImpact cfg start h m e = { ops := appliedVal cfg start h m e } := by
  unfold eventImpact appliedVal
  by_cases happ : eventApplies e m
  · simp only [happ, if_true]
    unfold allocate
    rw [ht, hent]
    simp
  · simp only [happ, Bool.false_eq_true, if_false]
    rfl

/-- A Property-entity Ops event never touches a store-side field of any row. -/
theorem forall₂_storeEq_cons_propops (cfg : FinancialModel) (start : Date)
    (e : BusinessEvent) (ht : e.impact_target = "Ops (Fixed)")
    (hent : e.affected_entity = "Property") :
    ∀ n : ℕ, List.Forall₂ storeEq
      (projRows { cfg with events := e :: cfg.events } start n)
      (projRows cfg start n) := by
  intro n
  induction n with
  | zero => exact List.Forall₂.nil
  | succ n ih =>
    rw [projRows, projRows]
    refine List.rel_append ih (List.Forall₂.cons ?_ List.Forall₂.nil)
    have hhist : histOf (projRows { cfg with events := e :: cfg.events } start n) =
        histOf (projRows cfg start n) :=
      map_eq_of_forall₂ (fun a b hab => hab.2.2.2.2.2.2.2.2.2.2.2.2.2) ih
    set A := projRows { cfg with events := e :: cfg.events } start n with hA
    set B := projRows cfg start n with hB
    have hmapS : A.map OutputRow.storeCum = B.map OutputRow.storeCum :=
      map_eq_of_forall₂ (fun a b hab => hab.2.2.2.2.2.2.2.2.2.2.2.2.1) ih
    have himp : monthImpacts { cfg with events := e :: cfg.events } start (histOf A)
        (n + 1) ({ cfg with events := e :: cfg.events } : FinancialModel).events =
        { propOps := appliedVal cfg start (histOf B) (n + 1) e } +
          monthImpacts cfg start (histOf B) (n + 1) cfg.events := by
      show monthImpacts cfg start (histOf A) (n + 1) (e :: cfg.events) = _
      rw [hhist, monthImpacts_cons,
        eventImpact_ops_property cfg start _ _ e ht hent]
    refine ⟨?_, ?_, ?_, rfl, ?_, rfl, rfl, rfl, rfl, rfl, ?_, ?_, ?_, ?_⟩
    · rw [monthRow_storeRevenue, monthRow_storeRevenue, himp]
      simp
      try rfl
    · rw [monthRow_storeCOGS, monthRow_storeCOGS, himp]
      simp
      try rfl
    · rw [monthRow_storeLabor, monthRow_storeLabor, himp]
      simp
      try rfl
    · rw [monthRow_storeOpsEx, monthRow_storeOpsEx, himp]
      simp
      try rfl
    · rw [monthRow_storeRentEx, monthRow_storeRentEx, himp]
      simp
      try rfl
    · rw [monthRow_storeNet, monthRow_storeNet, monthRow_storeNOIPre,
        monthRow_storeNOIPre, himp]
      simp
      try rfl
    · rw [monthRow_storeCum, monthRow_storeCum, monthRow_storeNet, monthRow_storeNet,
        monthRow_storeNOIPre, monthRow_storeNOIPre, himp,
        getLastD_eq_of_map_eq hmapS]
      simp
      try rfl
    · rw [monthRow_storeNOIPre, monthRow_storeNOIPre, himp]
      simp
      try rfl

/-- C7: entity isolation for Ops-targeted events.  If `affected_entity` is
Property, the event's value is added only to the property operating-expense
accumulator (all other accumulator components are unchanged), every store-side
field of every row -- `Store_Ops_Ex` in particular -- is identical to the run
without the event, and `Prop_Net` drops by exactly the applied value.  If
`affected_entity` is Store, the value is added only to the store
operating-expense accumulator and the property-ops component of the month's
accumulators is unchanged. -/
theorem ops_entity_isolation :
    ∀ (cfg : FinancialModel) (start : Date) (e : BusinessEvent),
      e.impact_target = "Ops (Fixed)" →
      ((e.affected_entity = "Property" →
        (∀ n, List.Forall₂ storeEq
          (projRows { cfg with events := e :: cfg.events } start n)
          (projRows cfg start n)) ∧
        (∀ (h : List ℚ) (m : ℕ),
          monthImpacts cfg start h m (e :: cfg.events) =
            { propOps := appliedVal cfg start h m e } +
              monthImpacts cfg start h m cfg.events) ∧
        (∀ n m : ℕ, 1 ≤ m → m ≤ n →
          (rowAt { cfg with events := e :: cfg.events } start n m).propNet =
            (rowAt cfg start n m).propNet -
              appliedVal cfg start (histOf (projRows cfg start (m - 1))) m e)) ∧
      (e.affected_entity = "Store" →
        ∀ (h : List ℚ) (m : ℕ),
          monthImpacts cfg start h m (e :: cfg.events) =
            { ops := appliedVal cfg start h m e } +
              monthImpacts cfg start h m cfg.events)) := by
  intro cfg start e ht
  constructor
  · intro hent
    refine ⟨forall₂_storeEq_cons_propops cfg start e ht hent, ?_, ?_⟩
    · intro h m
      rw [monthImpacts_cons, eventImpact_ops_property cfg start h m e ht hent]
    · intro n m h1 h2
      have hF := forall₂_storeEq_cons_propops cfg start e ht hent (m - 1)
      have hhist : histOf (projRows { cfg with events := e :: cfg.events } start (m - 1)) =
          histOf (projRows cfg start (m - 1)) :=
        map_eq_of_forall₂ (fun a b hab => hab.2.2.2.2.2.2.2.2.2.2.2.2.2) hF
      have himp : monthImpacts { cfg with events := e :: cfg.events } start
          (histOf (projRows { cfg with events := e :: cfg.events } start (m - 1))) m
          ({ cfg with events := e :: cfg.events } : FinancialModel).events =
          { propOps := appliedVal cfg start (histOf (projRows cfg start (m - 1))) m e } +
            monthImpacts cfg start (histOf (projRows cfg start (m - 1))) m cfg.events := by
        show monthImpacts cfg start
          (histOf (projRows { cfg with events := e :: cfg.events } start (m - 1))) m
          (e :: cfg.events) = _
        rw [hhist, monthImpacts_cons, eventImpact_ops_property cfg start _ m e ht hent]
      rw [rowAt_eq _ start h1 h2, rowAt_eq cfg start h1 h2, monthRow_propNet,
        monthRow_propNet, himp]
      show (store_rent_expense cfg m +
            (0 + (monthImpacts cfg start (histOf (projRows cfg start (m - 1))) m
              cfg.events).rent) +
          cfg.residential_rent_income * rent_growth_factor cfg m) -
          monthly_debt_service cfg -
          (appliedVal cfg start (histOf (projRows cfg start (m - 1))) m e +
            (monthImpacts cfg start (histOf (projRows cfg start (m - 1))) m
              cfg.events).propOps) -
          (0 + (monthImpacts cfg start (histOf (projRows cfg start (m - 1))) m
            cfg.events).capexProp) = _
      ring
  · intro hent h m
    rw [monthImpacts_cons, eventImpact_ops_store cfg start h m e ht hent]

/-- Witness for C7: the concrete Property and Store ops events on the baseline. -/
theorem ops_entity_isolation_witness :
    List.Forall₂ storeEq (projRows { wCfg with events := [roofEvent] } wStart 3)
        (projRows wCfg wStart 3) ∧
      (rowAt { wCfg with events := [roofEvent] } wStart 3 2).propNet =
        (rowAt wCfg wStart 3 2).propNet -
          appliedVal wCfg wStart (histOf (projRows wCfg wStart 1)) 2 roofEvent ∧
      monthImpacts wCfg wStart [] 1 [storeOpsEvent] =
        { ops := appliedVal wCfg wStart [] 1 storeOpsEvent } +
          monthImpacts wCfg wStart [] 1 [] := by
  have hp := ops_entity_isolation wCfg wStart roofEvent rfl
  have hs := ops_entity_isolation wCfg wStart storeOpsEvent rfl
  exact ⟨(hp.1 rfl).1 3, (hp.1 rfl).2.2 3 2 (by norm_num) (by norm_num),
    (hs.2 rfl) [] 1⟩

/-- Indexing a zip below both lengths pairs the two indexed entries. -/
theorem zip_getD {α β : Type} :
    ∀ (l₁ : List α) (l₂ : List β) (i : ℕ) (d₁ : α) (d₂ : β),
      i < l₁.length → i < l₂.length →
      (l₁.zip l₂).getD i (d₁, d₂) = (l₁.getD i d₁, l₂.getD i d₂) := by
  intro l₁
  induction l₁ with
  | nil =>
    intro l₂ i d₁ d₂ h₁ h₂
    simp at h₁
  | cons a t ih =>
    intro l₂ i d₁ d₂ h₁ h₂
    cases l₂ with
    | nil => simp at h₂
    | cons b t₂ =>
      cases i with
      | zero => rfl
      | succ j =>
        simpa using ih t₂ j d₁ d₂ (by simpa using h₁) (by simpa using h₂)

theorem range_map_getD {β : Type} (f : ℕ → β) (n i : ℕ) (h : i < n) (d : β) :
    ((List.range n).map f).getD i d = f i := by
  rw [List.getD_eq_getElem?_getD, List.getElem?_map, List.getElem?_range h]
  rfl

/-- C8: every emitted row of the full emission carries running loan-balance,
equity, property-value and intangible-asset figures in addition to the cash
figures, the loan balance is rolled forward each month as
`balance −= payment − balance × r` with the monthly payment constant
(`monthly_debt_service`), and equity is value minus balance; with a zero interest
rate the balance declines by exactly one constant payment per month. -/
theorem balance_columns_rollforward :
    ∀ (cfg : FinancialModel) (aa : AcquisitionAssets) (start : Date) (n m : ℕ),
      (projRowsFull cfg aa start n).length = n ∧
      (1 ≤ m → m ≤ n →
        (projRowsFull cfg aa start n).getD (m - 1) (defaultRow, balanceRowAt cfg aa 0) =
          (rowAt cfg start n m, balanceRowAt cfg aa m)) ∧
      (∀ k : ℕ,
        loanBalanceAt cfg (k + 1) =
          loanBalanceAt cfg k -
            (monthly_debt_service cfg - loanBalanceAt cfg k * monthlyRate cfg)) ∧
      ((balanceRowAt cfg aa m).propertyEquity =
        (balanceRowAt cfg aa m).propertyValue - (balanceRowAt cfg aa m).loanBalance) ∧
      (cfg.interest_rate = 0 → ∀ k : ℕ,
        loanBalanceAt cfg k = cfg.loan_amount - k * monthly_debt_service cfg) := by
  intro cfg aa start n m
  have hlen : (projRowsFull cfg aa start n).length = n := by
    rw [projRowsFull, List.length_zip, projRows_length, List.length_map,
      List.length_range, min_self]
  refine ⟨hlen, ?_, fun k => rfl, rfl, ?_⟩
  · intro h1 h2
    have hm : m - 1 < n := by omega
    unfold projRowsFull
    rw [zip_getD _ _ _ _ _ (by rw [projRows_length]; exact hm)
      (by rw [List.length_map, List.length_range]; exact hm)]
    rw [range_map_getD _ _ _ hm]
    rw [show m - 1 + 1 = m from by omega]
    rfl
  · intro h0 k
    induction k with
    | zero => simp [loanBalanceAt]
    | succ k ih =>
      rw [loanBalanceAt, ih, monthlyRate, h0]
      push_cast
      ring

/-- Witness for C8 on the concrete zero-interest baseline. -/
theorem balance_columns_rollforward_witness :
    (projRowsFull wCfg ⟨200000, 10, 10000⟩ wStart 2).length = 2 ∧
      (projRowsFull wCfg ⟨200000, 10, 10000⟩ wStart 2).getD 0
          (defaultRow, balanceRowAt wCfg ⟨200000, 10, 10000⟩ 0) =
        (rowAt wCfg wStart 2 1, balanceRowAt wCfg ⟨200000, 10, 10000⟩ 1) ∧
      loanBalanceAt wCfg 1 = wCfg.loan_amount - 1 * monthly_debt_service wCfg := by
  have h := balance_columns_rollforward wCfg ⟨200000, 10, 10000⟩ wStart 2 1
  exact ⟨h.1, h.2.1 (by norm_num) (by norm_num), h.2.2.2.2 rfl 1⟩

/-- C10: the `Capex` column of the month-1 row always equals `-initial_capex`,
even when events produce capex impacts in month 1 -- those event capex amounts are
excluded from the month-1 `Capex` column although they are still deducted from
`Store_Net` / `Prop_Net`; for every month `m > 1` the `Capex` column equals
`-(store event capex + property event capex)` of that month. -/
theorem capex_column_month1 :
    ∀ (cfg : FinancialModel) (start : Date) (n m : ℕ),
      1 ≤ n →
      ((rowAt cfg start n 1).capex = -cfg.initial_capex ∧
       (rowAt cfg start n 1).storeNet =
         (rowAt cfg start n 1).storeNOIPre - (impactsAt cfg start 1).capexStore ∧
       (rowAt cfg start n 1).propNet =
         ((store_rent_expense cfg 1 + (impactsAt cfg start 1).rent) +
           cfg.residential_rent_income * rent_growth_factor cfg 1) -
           monthly_debt_service cfg - (impactsAt cfg start 1).propOps -
           (impactsAt cfg start 1).capexProp) ∧
      (2 ≤ m → m ≤ n →
        (rowAt cfg start n m).capex =
          -((impactsAt cfg start m).capexStore + (impactsAt cfg start m).capexProp)) := by
  intro cfg start n m hn
  constructor
  · have hr : rowAt cfg start n 1 = monthRow cfg start (projRows cfg start 0) 1 :=
      rowAt_eq cfg start (by norm_num) (by omega)
    have hi : impactsAt cfg start 1 =
        monthImpacts cfg start (histOf (projRows cfg start 0)) 1 cfg.events := rfl
    refine ⟨?_, ?_, ?_⟩
    · rw [hr, monthRow_capex, if_pos rfl]
    · rw [hr, monthRow_storeNet, hi, sub_zero]
    · rw [hr, monthRow_propNet, hi]
  · intro hm2 hmn
    obtain ⟨k, hk⟩ : ∃ k, m = k + 2 := ⟨m - 2, by omega⟩
    subst hk
    have hr : rowAt cfg start n (k + 2) =
        monthRow cfg start (projRows cfg start (k + 1)) (k + 2) :=
      rowAt_succ cfg start (show (k + 1) + 1 ≤ n from hmn)
    have hi : impactsAt cfg start (k + 2) =
        monthImpacts cfg start (histOf (projRows cfg start (k + 1))) (k + 2) cfg.events := rfl
    rw [hr, monthRow_capex, if_neg (by omega), hi]

/-- Witness for C10: a month-1 one-time store capex event next to a nonzero
`initial_capex`, in a 2-month run. -/
theorem capex_column_month1_witness :
    (rowAt { wCfg with initial_capex := 50000, events := [renoEvent] } wStart 2 1).capex =
        -({ wCfg with initial_capex := 50000, events := [renoEvent] } :
          FinancialModel).initial_capex ∧
      (rowAt { wCfg with initial_capex := 50000, events := [renoEvent] } wStart 2 1).storeNet =
        (rowAt { wCfg with initial_capex := 50000, events := [renoEvent] } wStart 2
            1).storeNOIPre -
          (impactsAt { wCfg with initial_capex := 50000, events := [renoEvent] } wStart
            1).capexStore ∧
      (rowAt { wCfg with initial_capex := 50000, events := [renoEvent] } wStart 2 2).capex =
        -((impactsAt { wCfg with initial_capex := 50000, events := [renoEvent] } wStart
              2).capexStore +
          (impactsAt { wCfg with initial_capex := 50000, events := [renoEvent] } wStart
              2).capexProp) := by
  have h := capex_column_month1 { wCfg with initial_capex := 50000, events := [renoEvent] }
    wStart 2 2 (by norm_num)
  exact ⟨h.1.1, h.1.2.1, h.2 (by norm_num) (by norm_num)⟩

/-- Each run's rows all satisfy the owner consolidation equations, and the running
cumulative of the last emitted row (with the seeds of lines 90-92 before month 1)
satisfies owner = store + property. -/
theorem owner_cum_inv (cfg : FinancialModel) (start : Date) : ∀ n : ℕ,
    (∀ r ∈ projRows cfg start n, r.ownerCashFlow = r.storeNet + r.propNet ∧
      r.ownerCum = r.storeCum + r.propCum) ∧
    (((projRows cfg start n).getLast?.map OutputRow.ownerCum).getD (-cfg.initial_capex) =
      ((projRows cfg start n).getLast?.map OutputRow.storeCum).getD (-cfg.initial_capex) +
        ((projRows cfg start n).getLast?.map OutputRow.propCum).getD 0) := by
  intro n
  induction n with
  | zero => exact ⟨by simp [projRows], by simp [projRows]⟩
  | succ n ih =>
    have hrow : (monthRow cfg start (projRows cfg start n) (n + 1)).ownerCashFlow =
        (monthRow cfg start (projRows cfg start n) (n + 1)).storeNet +
          (monthRow cfg start (projRows cfg start n) (n + 1)).propNet ∧
        (monthRow cfg start (projRows cfg start n) (n + 1)).ownerCum =
          (monthRow cfg start (projRows cfg start n) (n + 1)).storeCum +
            (monthRow cfg start (projRows cfg start n) (n + 1)).propCum := by
      constructor
      · rfl
      · rw [monthRow_ownerCum, monthRow_storeCum, monthRow_propCum,
          monthRow_ownerCashFlow, ih.2]
        ring
    constructor
    · intro r hm
      rw [projRows] at hm
      rcases List.mem_append.mp hm with h | h
      · exact ih.1 r h
      · have : r = monthRow cfg start (projRows cfg start n) (n + 1) := by simpa using h
        rw [this]
        exact hrow
    · rw [projRows, List.getLast?_concat]
      simpa using hrow.2

/-- The cumulative fields of month `k+2` extend those of month `k+1` by the month's
net figures. -/
theorem cum_step (cfg : FinancialModel) (start : Date) {n k : ℕ} (h2 : k + 2 ≤ n) :
    (rowAt cfg start n (k + 2)).storeCum =
        (rowAt cfg start n (k + 1)).storeCum + (rowAt cfg start n (k + 2)).storeNet ∧
      (rowAt cfg start n (k + 2)).propCum =
        (rowAt cfg start n (k + 1)).propCum + (rowAt cfg start n (k + 2)).propNet ∧
      (rowAt cfg start n (k + 2)).ownerCum =
        (rowAt cfg start n (k + 1)).ownerCum + (rowAt cfg start n (k + 2)).ownerCashFlow := by
  have hr2 : rowAt cfg start n (k + 2) =
      monthRow cfg start (projRows cfg start (k + 1)) (k + 2) :=
    rowAt_succ cfg start (show (k + 1) + 1 ≤ n from h2)
  have hr1 : rowAt cfg start n (k + 1) =
      monthRow cfg start (projRows cfg start k) (k + 1) :=
    rowAt_succ cfg start (by omega)
  have hlast : (projRows cfg start (k + 1)).getLast? =
      some (monthRow cfg start (projRows cfg start k) (k + 1)) := by
    rw [projRows, List.getLast?_concat]
  rw [hr2, hr1, monthRow_storeCum, monthRow_propCum, monthRow_ownerCum, hlast]
  simp

/-- C9: in every emitted row, `Owner_Cash_Flow = Store_Net + Prop_Net` and
`Owner_Cum = Store_Cum + Prop_Cum`; the store and owner cumulative balances are
seeded with `-initial_capex` before month 1 while the property cumulative starts
at 0, and each month adds exactly that month's net to the corresponding
cumulative. -/
theorem owner_consolidation_invariant :
    ∀ (cfg : FinancialModel) (start : Date) (n m : ℕ), 1 ≤ m → m ≤ n →
      ((rowAt cfg start n m).ownerCashFlow =
        (rowAt cfg start n m).storeNet + (rowAt cfg start n m).propNet) ∧
      ((rowAt cfg start n m).ownerCum =
        (rowAt cfg start n m).storeCum + (rowAt cfg start n m).propCum) ∧
      (m = 1 →
        (rowAt cfg start n 1).storeCum =
            -cfg.initial_capex + (rowAt cfg start n 1).storeNet ∧
          (rowAt cfg start n 1).propCum = 0 + (rowAt cfg start n 1).propNet ∧
          (rowAt cfg start n 1).ownerCum =
            -cfg.initial_capex + (rowAt cfg start n 1).ownerCashFlow) ∧
      (2 ≤ m →
        (rowAt cfg start n m).storeCum =
            (rowAt cfg start n (m - 1)).storeCum + (rowAt cfg start n m).storeNet ∧
          (rowAt cfg start n m).propCum =
            (rowAt cfg start n (m - 1)).propCum + (rowAt cfg start n m).propNet ∧
          (rowAt cfg start n m).ownerCum =
            (rowAt cfg start n (m - 1)).ownerCum + (rowAt cfg start n m).ownerCashFlow) := by
  intro cfg start n m h1 h2
  have hmem : rowAt cfg start n m ∈ projRows cfg start n := by
    rw [rowAt, List.getD_eq_getElem _ _ (by rw [projRows_length]; omega)]
    exact List.getElem_mem _
  have hinv := (owner_cum_inv cfg start n).1 _ hmem
  refine ⟨hinv.1, hinv.2, fun hm1 => ?_, fun hm2 => ?_⟩
  · have hr : rowAt cfg start n 1 = monthRow cfg start (projRows cfg start 0) 1 :=
      rowAt_eq cfg start (by norm_num) (by omega)
    rw [hr, monthRow_storeCum, monthRow_propCum, monthRow_ownerCum]
    simp [projRows]
  · obtain ⟨k, hk⟩ : ∃ k, m = k + 2 := ⟨m - 2, by omega⟩
    subst hk
    have hsub : k + 2 - 1 = k + 1 := by omega
    rw [hsub]
    exact cum_step cfg start h2

/-- Witness for C9 on the concrete baseline, months 1 and 2 of a 2-month run. -/
theorem owner_consolidation_invariant_witness :
    (rowAt wCfg wStart 2 2).ownerCashFlow =
        (rowAt wCfg wStart 2 2).storeNet + (rowAt wCfg wStart 2 2).propNet ∧
      (rowAt wCfg wStart 2 2).ownerCum =
        (rowAt wCfg wStart 2 1).ownerCum + (rowAt wCfg wStart 2 2).ownerCashFlow ∧
      (rowAt wCfg wStart 2 1).storeCum =
        -wCfg.initial_capex + (rowAt wCfg wStart 2 1).storeNet := by
  have h2 := owner_consolidation_invariant wCfg wStart 2 2 (by norm_num) (by norm_num)
  have h1 := owner_consolidation_invariant wCfg wStart 2 1 (by norm_num) (by norm_num)
  exact ⟨h2.1, (h2.2.2.2 (by norm_num)).2.2, (h1.2.2.1 rfl).1⟩

/-- C1: for every event with value type Percentage and pct_basis NOI, the lookback
window is 1 month for Monthly, 3 for Quarterly, 12 for Annually; the event value at
month `m` is the sum of the finalized `Store_NOI_Pre` of the previous `window` rows
times `value/100`, is 0 whenever `m ≤ window`, and is forced to 0 whenever the
summed NOI is ≤ 0.  A Quarterly NOI event with start_month 1 and value 10
contributes exactly 10% of the months 1-3 NOI sum to its target at month 4 when
that sum is positive, exactly 0 when it is ≤ 0, and nothing at month 5. -/
theorem noi_lookback_event_value :
    (∀ (e : BusinessEvent),
      (e.frequency = "Monthly" → noi_window e = 1) ∧
      (e.frequency = "Quarterly" → noi_window e = 3) ∧
      (e.frequency = "Annually" → noi_window e = 12)) ∧
    (∀ (cfg : FinancialModel) (start : Date) (noiHist : List ℚ) (m : ℕ)
      (e : BusinessEvent),
      e.value_type = "Percentage (%)" → e.pct_basis = "NOI" →
      ((m ≤ noi_window e → eventVal cfg start noiHist m e = 0) ∧
       (noi_window e < m →
        (0 < ((List.range (noi_window e)).map
              fun i => noiHist.getD (m - (i + 1) - 1) 0).sum →
          eventVal cfg start noiHist m e =
            ((List.range (noi_window e)).map
              fun i => noiHist.getD (m - (i + 1) - 1) 0).sum * (e.value / 100)) ∧
        (((List.range (noi_window e)).map
              fun i => noiHist.getD (m - (i + 1) - 1) 0).sum ≤ 0 →
          eventVal cfg start noiHist m e = 0)))) ∧
    (∀ (cfg : FinancialModel) (start : Date) (n : ℕ) (e : BusinessEvent),
      cfg.events = [e] →
      e.start_month = 1 → 5 ≤ e.end_month → e.frequency = "Quarterly" →
      e.impact_target = "Revenue" → e.value_type = "Percentage (%)" →
      e.pct_basis = "NOI" → e.value = 10 → e.is_active = true →
      5 ≤ n →
      ((0 < (rowAt cfg start n 1).storeNOIPre + (rowAt cfg start n 2).storeNOIPre +
            (rowAt cfg start n 3).storeNOIPre →
        (rowAt cfg start n 4).storeRevenue =
          monthly_base_rev cfg start 4 +
            ((rowAt cfg start n 1).storeNOIPre + (rowAt cfg start n 2).storeNOIPre +
              (rowAt cfg start n 3).storeNOIPre) * (10 / 100)) ∧
       ((rowAt cfg start n 1).storeNOIPre + (rowAt cfg start n 2).storeNOIPre +
            (rowAt cfg start n 3).storeNOIPre ≤ 0 →
        (rowAt cfg start n 4).storeRevenue = monthly_base_rev cfg start 4) ∧
       (rowAt cfg start n 5).storeRevenue = monthly_base_rev cfg start 5)) := by
  refine ⟨?_, ?_, ?_⟩
  · intro e
    refine ⟨fun h => ?_, fun h => ?_, fun h => ?_⟩ <;> simp [noi_window, h]
  · intro cfg start noiHist m e hvt hpb
    have hb : basis_to_use e = "NOI" := by rw [basis_to_use_pct e hvt, hpb]
    rw [eventVal_pct cfg start noiHist m e hvt, model_base_val_noi cfg start noiHist m e hb]
    constructor
    · intro hm
      rw [noi_lookback, if_neg (by omega)]
      ring
    · intro hm
      constructor
      · intro hs
        rw [noi_lookback, if_pos hm]
        show (if 0 < ((List.range (noi_window e)).map
            fun i => noiHist.getD (m - (i + 1) - 1) 0).sum then
          ((List.range (noi_window e)).map fun i => noiHist.getD (m - (i + 1) - 1) 0).sum
          else 0) * (e.value / 100) = _
        rw [if_pos hs]
      · intro hs
        rw [noi_lookback, if_pos hm]
        show (if 0 < ((List.range (noi_window e)).map
            fun i => noiHist.getD (m - (i + 1) - 1) 0).sum then
          ((List.range (noi_window e)).map fun i => noiHist.getD (m - (i + 1) - 1) 0).sum
          else 0) * (e.value / 100) = 0
        rw [if_neg (not_lt.mpr hs), zero_mul]
  · intro cfg start n e hev hs h5e hfreq htgt hvt hpb hval hact hn
    have hb : basis_to_use e = "NOI" := by rw [basis_to_use_pct e hvt, hpb]
    have hw : noi_window e = 3 := by simp [noi_window, hfreq]
    have happ5 : eventApplies e 5 = false := by
      unfold eventApplies
      rw [hfreq, hs]
      simp
    have h5 : (rowAt cfg start n 5).storeRevenue = monthly_base_rev cfg start 5 := by
      rw [rowAt_eq cfg start (by norm_num) (by omega), monthRow_storeRevenue, hev,
        monthImpacts_cons, monthImpacts_nil, add_zero, eventImpact, happ5]
      simp
    have happ4 : eventApplies e 4 = true := by
      unfold eventApplies
      rw [hfreq, hs, hact]
      simp
      omega
    have hS : ((List.range 3).map
        fun i => (histOf (projRows cfg start 3)).getD (4 - (i + 1) - 1) 0).sum =
        (rowAt cfg start n 1).storeNOIPre + (rowAt cfg start n 2).storeNOIPre +
          (rowAt cfg start n 3).storeNOIPre := by
      rw [show List.range 3 = [0, 1, 2] from rfl]
      simp only [List.map_cons, List.map_nil, List.sum_cons, List.sum_nil, add_zero]
      show (histOf (projRows cfg start 3)).getD 2 0 +
          ((histOf (projRows cfg start 3)).getD 1 0 +
            (histOf (projRows cfg start 3)).getD 0 0) = _
      rw [@histOf_proj_getD cfg start n 3 2 (by norm_num) (by omega),
        @histOf_proj_getD cfg start n 3 1 (by norm_num) (by omega),
        @histOf_proj_getD cfg start n 3 0 (by norm_num) (by omega)]
      ring
    have hrev4 : (rowAt cfg start n 4).storeRevenue =
        monthly_base_rev cfg start 4 +
          noi_lookback (histOf (projRows cfg start 3)) 4 3 * (10 / 100) := by
      rw [rowAt_eq cfg start (by norm_num) (by omega), monthRow_storeRevenue, hev,
        monthImpacts_cons, monthImpacts_nil, add_zero, eventImpact, happ4]
      simp only [if_true]
      rw [eventVal_pct cfg start _ 4 e hvt, model_base_val_noi cfg start _ 4 e hb, hw, hval]
      simp [allocate, htgt]
    refine ⟨fun hpos => ?_, fun hneg => ?_, h5⟩
    · rw [hrev4, noi_lookback, if_pos (by norm_num)]
      show monthly_base_rev cfg start 4 + (if 0 < ((List.range 3).map
          fun i => (histOf (projRows cfg start 3)).getD (4 - (i + 1) - 1) 0).sum then
          ((List.range 3).map
            fun i => (histOf (projRows cfg start 3)).getD (4 - (i + 1) - 1) 0).sum
          else 0) * (10 / 100) = _
      rw [hS, if_pos hpos]
    · rw [hrev4, noi_lookback, if_pos (by norm_num)]
      show monthly_base_rev cfg start 4 + (if 0 < ((List.range 3).map
          fun i => (histOf (projRows cfg start 3)).getD (4 - (i + 1) - 1) 0).sum then
          ((List.range 3).map
            fun i => (histOf (projRows cfg start 3)).getD (4 - (i + 1) - 1) 0).sum
          else 0) * (10 / 100) = _
      rw [hS, if_neg (not_lt.mpr hneg), zero_mul, add_zero]

/-- Witness for C1: the quarterly NOI bonus event on the concrete baseline, whose
months 1-3 NOI sum is positive, evaluated at months 4 and 5 of a 5-month run. -/
theorem noi_lookback_event_value_witness :
    0 < (rowAt { wCfg with events := [noiBonusEvent] } wStart 5 1).storeNOIPre +
        (rowAt { wCfg with events := [noiBonusEvent] } wStart 5 2).storeNOIPre +
        (rowAt { wCfg with events := [noiBonusEvent] } wStart 5 3).storeNOIPre ∧
    (rowAt { wCfg with events := [noiBonusEvent] } wStart 5 4).storeRevenue =
      monthly_base_rev { wCfg with events := [noiBonusEvent] } wStart 4 +
        ((rowAt { wCfg with events := [noiBonusEvent] } wStart 5 1).storeNOIPre +
          (rowAt { wCfg with events := [noiBonusEvent] } wStart 5 2).storeNOIPre +
          (rowAt { wCfg with events := [noiBonusEvent] } wStart 5 3).storeNOIPre) *
          (10 / 100) ∧
    (rowAt { wCfg with events := [noiBonusEvent] } wStart 5 5).storeRevenue =
      monthly_base_rev { wCfg with events := [noiBonusEvent] } wStart 5 := by
  have h := noi_lookback_event_value.2.2 { wCfg with events := [noiBonusEvent] } wStart 5
    noiBonusEvent rfl rfl (by norm_num [noiBonusEvent]) rfl rfl rfl rfl rfl rfl
    (by norm_num)
  have himp1 : ∀ hs : List ℚ,
      eventImpact { wCfg with events := [noiBonusEvent] } wStart hs 1 noiBonusEvent = 0 := by
    intro hs
    rw [eventImpact, if_pos (by decide), eventVal_pct _ _ _ _ _ rfl,
      model_base_val_noi _ _ _ _ _ (basis_to_use_pct _ rfl),
      show noi_window noiBonusEvent = 3 from rfl, noi_lookback, if_neg (by omega),
      zero_mul, allocate_zero]
  have himp2 : ∀ hs : List ℚ,
      eventImpact { wCfg with events := [noiBonusEvent] } wStart hs 2 noiBonusEvent = 0 := by
    intro hs
    rw [eventImpact, if_neg (by decide)]
  have himp3 : ∀ hs : List ℚ,
      eventImpact { wCfg with events := [noiBonusEvent] } wStart hs 3 noiBonusEvent = 0 := by
    intro hs
    rw [eventImpact, if_neg (by decide)]
  have base : ∀ m : ℕ, 1 ≤ m → m ≤ 3 →
      (rowAt { wCfg with events := [noiBonusEvent] } wStart 5 m).storeNOIPre =
        monthly_base_rev { wCfg with events := [noiBonusEvent] } wStart m -
          (cogs_base_amt { wCfg with events := [noiBonusEvent] } wStart m +
            store_labor { wCfg with events := [noiBonusEvent] } wStart m +
            store_ops_expenses { wCfg with events := [noiBonusEvent] } m +
            store_rent_expense { wCfg with events := [noiBonusEvent] } m) := by
    intro m h1 h3
    rw [rowAt_eq _ _ h1 (by omega), monthRow_storeNOIPre,
      show ({ wCfg with events := [noiBonusEvent] } : FinancialModel).events =
        [noiBonusEvent] from rfl, monthImpacts_cons, monthImpacts_nil, add_zero]
    interval_cases m
    · rw [himp1]
      simp
    · rw [himp2]
      simp
    · rw [himp3]
      simp
  have hpos : 0 < (rowAt { wCfg with events := [noiBonusEvent] } wStart 5 1).storeNOIPre +
      (rowAt { wCfg with events := [noiBonusEvent] } wStart 5 2).storeNOIPre +
      (rowAt { wCfg with events := [noiBonusEvent] } wStart 5 3).storeNOIPre := by
    rw [base 1 (by norm_num) (by norm_num), base 2 (by norm_num) (by norm_num),
      base 3 (by norm_num) (by norm_num)]
    norm_num [monthly_base_rev, cogs_base_amt, store_labor, manager_mo_cost,
      manager_hours_mo, staff_cost_mo, required_hourly_staff_hours, labor_seasonality,
      store_ops_expenses, ex_util, ex_ins, ex_maint, ex_mktg, ex_prof, store_rent_expense,
      rev_growth_factor, exp_growth_factor, wage_growth_factor, rent_growth_factor,
      seasonality_factor, cal_quarter_idx, cal_month, project_year_idx, DAYS_IN_MONTH,
      wCfg, wStart]
  exact ⟨hpos, h.1 hpos, h.2.2⟩

/-- C2: with a single active Monthly event, start_month 7, end_month 9, target
Revenue, value type Percentage, value 5, basis Revenue, the revenue of every month
`m ≤ 6` or `m ≥ 10` is the base revenue unchanged, and the revenue of months 7-9
is exactly `1.05 ×` the pre-event base monthly revenue of that month (the
percentage is taken of the base figure, never of an event-adjusted one). -/
theorem monthly_pct_event_window :
    ∀ (cfg : FinancialModel) (start : Date) (n m : ℕ) (e : BusinessEvent),
      cfg.events = [e] →
      e.start_month = 7 → e.end_month = 9 → e.frequency = "Monthly" →
      e.impact_target = "Revenue" → e.value_type = "Percentage (%)" →
      e.pct_basis = "Revenue" → e.value = 5 → e.is_active = true →
      1 ≤ m → m ≤ n →
      ((m ≤ 6 ∨ 10 ≤ m →
          (rowAt cfg start n m).storeRevenue = monthly_base_rev cfg start m) ∧
       (7 ≤ m → m ≤ 9 →
          (rowAt cfg start n m).storeRevenue =
            (105 / 100) * monthly_base_rev cfg start m)) := by
  intro cfg start n m e hev h7 h9 hfreq htgt hvt hpb hval hact h1 h2
  rw [rowAt_eq cfg start h1 h2, monthRow_storeRevenue, hev, monthImpacts_cons,
    monthImpacts_nil, add_zero]
  constructor
  · intro hout
    have happ : eventApplies e m = false := by
      unfold eventApplies
      rw [h7, h9, hfreq, hact]
      simp
      omega
    simp [eventImpact, happ]
  · intro hge hle
    have happ : eventApplies e m = true := by
      unfold eventApplies
      rw [h7, h9, hfreq, hact]
      simp
      omega
    have hb : basis_to_use e = "Revenue" := by rw [basis_to_use_pct e hvt, hpb]
    simp only [eventImpact, happ, if_true,
      eventVal_pct cfg start _ m e hvt,
      model_base_val_rev cfg start _ m e hb, allocate, htgt, if_pos rfl, hval]
    ring

/-- Witness for C2: the promo event on the concrete baseline, months 8 and 5. -/
theorem monthly_pct_event_window_witness :
    (rowAt { wCfg with events := [promoEvent] } wStart 12 8).storeRevenue =
        (105 / 100) * monthly_base_rev { wCfg with events := [promoEvent] } wStart 8 ∧
      (rowAt { wCfg with events := [promoEvent] } wStart 12 5).storeRevenue =
        monthly_base_rev { wCfg with events := [promoEvent] } wStart 5 :=
  ⟨(monthly_pct_event_window { wCfg with events := [promoEvent] } wStart 12 8 promoEvent
      rfl rfl rfl rfl rfl rfl rfl rfl rfl (by norm_num) (by norm_num)).2
      (by norm_num) (by norm_num),
   (monthly_pct_event_window { wCfg with events := [promoEvent] } wStart 12 5 promoEvent
      rfl rfl rfl rfl rfl rfl rfl rfl rfl (by norm_num) (by norm_num)).1
      (Or.inl (by norm_num))⟩

/-- Month 13 falls in the same calendar month (hence quarter) as month 1,
whatever the start date. -/
theorem cal_month_13 (start : Date) : cal_month start 13 = cal_month start 1 := by
  show (start.month - 1 + 12) % 12 + 1 = (start.month - 1 + 0) % 12 + 1
  simp [Nat.add_mod_right]

theorem seasonality_factor_13 (cfg : FinancialModel) (start : Date) :
    seasonality_factor cfg start 13 = seasonality_factor cfg start 1 := by
  unfold seasonality_factor cal_quarter_idx
  rw [cal_month_13]

/-- C3: growth is stepped annually by ownership year, not calendar year: every
growth multiplier of month `m` equals `(1 + annual_rate/100)^((m-1)/12)`, a
function of the project month alone (no multiplier reads the start date).
Consequently, with `revenue_growth_rate = 10` and no events, month-13 revenue is
exactly `1.10 ×` month-1 revenue for every start date (the seasonality factors of
months 1 and 13 coincide because both fall in the same calendar quarter). -/
theorem annual_growth_step :
    (∀ (cfg : FinancialModel) (m : ℕ),
      rev_growth_factor cfg m = (1 + cfg.revenue_growth_rate / 100) ^ ((m - 1) / 12) ∧
      exp_growth_factor cfg m = (1 + cfg.expense_growth_rate / 100) ^ ((m - 1) / 12) ∧
      wage_growth_factor cfg m = (1 + cfg.wage_growth_rate / 100) ^ ((m - 1) / 12) ∧
      rent_growth_factor cfg m = (1 + cfg.rent_escalation_rate / 100) ^ ((m - 1) / 12)) ∧
    (∀ (cfg : FinancialModel) (start : Date) (n : ℕ),
      cfg.revenue_growth_rate = 10 → cfg.events = [] → 13 ≤ n →
      (rowAt cfg start n 13).storeRevenue = (11 / 10) * (rowAt cfg start n 1).storeRevenue) := by
  constructor
  · intro cfg m
    exact ⟨rfl, rfl, rfl, rfl⟩
  · intro cfg start n hrate hev hn
    rw [rowAt_eq cfg start (by norm_num) hn, rowAt_eq cfg start (by norm_num) (by omega)]
    simp only [monthRow_storeRevenue, hev, monthImpacts_nil, Impacts.zero_rev, add_zero]
    unfold monthly_base_rev rev_growth_factor project_year_idx
    rw [seasonality_factor_13, hrate]
    norm_num
    ring

/-- Witness for C3: the month-13 step on the concrete baseline configuration. -/
theorem annual_growth_step_witness :
    (rowAt { wCfg with revenue_growth_rate := 10 } wStart 13 13).storeRevenue =
      (11 / 10) *
        (rowAt { wCfg with revenue_growth_rate := 10 } wStart 13 1).storeRevenue :=
  annual_growth_step.2 { wCfg with revenue_growth_rate := 10 } wStart 13 rfl rfl
    (by norm_num)

/-- Witness for C6 at concrete inputs. -/
theorem calculate_monthly_payment_spec_witness :
    calculate_monthly_payment (-5) 3 10 = 0 ∧
    calculate_monthly_payment 120000 0 10 = 120000 / ((10 : ℚ) * 12) ∧
    calculate_monthly_payment 100000 5 30 =
      100000 * ((((5 : ℚ) / 100) / 12) * (1 + ((5 : ℚ) / 100) / 12) ^ (30 * 12)) /
        ((1 + ((5 : ℚ) / 100) / 12) ^ (30 * 12) - 1) :=
  ⟨calculate_monthly_payment_spec.1 (-5) 3 10 (by norm_num),
   calculate_monthly_payment_spec.2.1 120000 0 10 (by norm_num) (by norm_num),
   calculate_monthly_payment_spec.2.2.1 100000 5 30 (by norm_num) (by norm_num)⟩

end NDGS
